import Mathlib

/-!
Verification development for the radarpub repository.

The definitions below are shallow embeddings of the Rust sources:
byte slices become lists of naturals (each entry is one octet), machine
integers become naturals or integers with explicit modular reduction,
fallible code returns Except or Option, and a panic is modelled as the
Option value none.  The main subjects are the SMS UDP radar-cube
reassembler (src/eth.rs), the UATv4 CAN protocol engine (src/can.rs) and
the cluster-id bookkeeping of the clustering module
(src/clustering/mod.rs, src/clustering/tracker.rs).
-/

/-! ## SMS error type (src/eth.rs, enum SMSError) -/

/-- Error kinds of the SMS cube reassembler.  Payloads that only carry
diagnostic text in the source are dropped; numeric payloads are kept. -/
inductive SMSError where
  | IoError : SMSError
  | StartPattern : Nat → SMSError
  | UnexpectedEndOfSlice : Nat → SMSError
  | InvalidHeaderLength : Nat → SMSError
  | InvalidPayloadLength : Nat → SMSError
  | InvalidPortId : Nat → SMSError
  | InvalidDebugFlags : Nat → SMSError
  | MessageCounterMissing : SMSError
  | DebugHeaderMissing : SMSError
  | PortHeaderMissing : SMSError
  | CubeHeaderMissing : SMSError
  | BinPropertiesMissing : SMSError
  | MessageSequenceError : SMSError
  | FrameCounterError : SMSError
  | ShapeError : SMSError
  | MissingCubeData : Nat → Nat → SMSError
  | DroppedMessages : Nat → SMSError
deriving DecidableEq, Repr

/-! ## Big-endian byte recombination helpers -/

/-- Big-endian 16-bit recombination, u16 from_be_bytes. -/
def u16be (b0 b1 : Nat) : Nat := b0 * 256 + b1

/-- Big-endian 32-bit recombination, u32 from_be_bytes. -/
def u32be (b0 b1 b2 b3 : Nat) : Nat :=
  ((b0 * 256 + b1) * 256 + b2) * 256 + b3

/-- Big-endian 64-bit recombination, u64 from_be_bytes. -/
def u64be (b0 b1 b2 b3 b4 b5 b6 b7 : Nat) : Nat :=
  ((((((b0 * 256 + b1) * 256 + b2) * 256 + b3) * 256 + b4) * 256 + b5) * 256
      + b6) * 256 + b7

/-- Signed 16-bit big-endian read (i16 from_be_bytes). -/
def i16be (b0 b1 : Nat) : Int :=
  let v := u16be b0 b1 % 65536
  if v < 32768 then (v : Int) else (v : Int) - 65536

/-- Signed 32-bit big-endian read (i32 from_be_bytes). -/
def i32be (b0 b1 b2 b3 : Nat) : Int :=
  let v := u32be b0 b1 b2 b3 % 4294967296
  if v < 2147483648 then (v : Int) else (v : Int) - 4294967296

/-- Signed 8-bit read (i8 from_be_bytes of one byte). -/
def i8val (b : Nat) : Int :=
  let v := b % 256
  if v < 128 then (v : Int) else (v : Int) - 256

/-- Rust integer cast as usize applied to a signed value: sign-extend to
64 bits and reinterpret as an unsigned machine word. -/
def asUsize (v : Int) : Nat := (v % (2 ^ 64 : Int)).toNat

/-! ## SMS transport header (TransportHeaderSlice) -/

/-- Size in bytes of the optional message_counter field: present when bit
0x01 of the low flags byte (offset 9) is set. -/
def message_counter_size (s : List Nat) : Nat :=
  if s.getD 9 0 &&& 1 ≠ 0 then 2 else 0

/-- Size in bytes of the optional client_id field (flag bit 0x08). -/
def client_id_size (s : List Nat) : Nat :=
  if s.getD 9 0 &&& 8 ≠ 0 then 4 else 0

/-- Size in bytes of the optional data_id field (flag bit 0x20). -/
def data_id_size (s : List Nat) : Nat :=
  if s.getD 9 0 &&& 32 ≠ 0 then 2 else 0

/-- Size in bytes of the optional segmentation field (flag bit 0x40). -/
def segmentation_size (s : List Nat) : Nat :=
  if s.getD 9 0 &&& 64 ≠ 0 then 2 else 0

/-- Offset of the trailing CRC inside the transport header,
TransportHeader MIN_LEN minus CRC_LEN plus the optional field sizes. -/
def crc_offset (s : List Nat) : Nat :=
  10 + message_counter_size s + client_id_size s + data_id_size s
    + segmentation_size s

/-- Total transport header length, TransportHeaderSlice len. -/
def header_len (s : List Nat) : Nat :=
  12 + message_counter_size s + client_id_size s + data_id_size s
    + segmentation_size s

/-- Validation performed by TransportHeaderSlice from_slice, in source
order: minimum length, start pattern 0x7E, room for the CRC, reported
header length agreeing with the computed one, and room for the payload. -/
def transport_from_slice (s : List Nat) : Except SMSError Unit :=
  if s.length < 12 then .error (.UnexpectedEndOfSlice s.length)
  else if s.getD 0 0 ≠ 0x7E then .error (.StartPattern (s.getD 0 0))
  else if s.length < crc_offset s + 2 then
    .error (.UnexpectedEndOfSlice s.length)
  else if crc_offset s + 2 ≠ s.getD 2 0 then
    .error (.UnexpectedEndOfSlice s.length)
  else if s.length < s.getD 2 0 + u16be (s.getD 3 0) (s.getD 4 0) then
    .error (.UnexpectedEndOfSlice s.length)
  else .ok ()

/-- Application protocol byte at offset 5. -/
def application_protocol (s : List Nat) : Nat := s.getD 5 0

/-- Transport payload: everything after the (variable length) header. -/
def transport_payload (s : List Nat) : List Nat := s.drop (header_len s)

/-- Optional message counter field at offset 10 when present.  The source
wraps it in Wrapping of u16; we keep the raw 16-bit value. -/
def message_counter (s : List Nat) : Option Nat :=
  if 0 < message_counter_size s then
    some (u16be (s.getD 10 0) (s.getD 11 0))
  else none

/-! ## SMS debug header (DebugHeaderSlice) -/

/-- Debug header region: requires application protocol 5 and at least the
8-byte debug header in the transport payload. -/
def debug_slice (s : List Nat) : Except SMSError (List Nat) :=
  if application_protocol s ≠ 5 then .error .DebugHeaderMissing
  else if (transport_payload s).length < 8 then
    .error (.UnexpectedEndOfSlice (transport_payload s).length)
  else .ok (transport_payload s)

/-- Frame counter of a debug header region (bytes 0-3, big-endian). -/
def dbg_frame_counter (d : List Nat) : Nat :=
  u32be (d.getD 0 0) (d.getD 1 0) (d.getD 2 0) (d.getD 3 0)

/-- Flags byte of a debug header region (byte 4). -/
def dbg_flags (d : List Nat) : Nat := d.getD 4 0

/-- Payload following the 8-byte debug header. -/
def dbg_payload (d : List Nat) : List Nat := d.drop 8

/-! ## SMS port header (PortHeaderSlice) -/

/-- Port header region.  With application protocol 5 the port header
follows the debug header when the debug flags are 1 or 3; with protocol 8
it is the transport payload itself; otherwise it is missing.  The region
must hold the 24-byte port header. -/
def port_slice (s : List Nat) : Except SMSError (List Nat) :=
  match application_protocol s with
  | 5 =>
    match debug_slice s with
    | .error e => .error e
    | .ok d =>
      match dbg_flags d with
      | 1 =>
        if (dbg_payload d).length < 24 then
          .error (.UnexpectedEndOfSlice (dbg_payload d).length)
        else .ok (dbg_payload d)
      | 3 =>
        if (dbg_payload d).length < 24 then
          .error (.UnexpectedEndOfSlice (dbg_payload d).length)
        else .ok (dbg_payload d)
      | _ => .error .PortHeaderMissing
  | 8 =>
    if (transport_payload s).length < 24 then
      .error (.UnexpectedEndOfSlice (transport_payload s).length)
    else .ok (transport_payload s)
  | _ => .error .PortHeaderMissing

/-- Port id (bytes 0-3 of the port header region, big-endian). -/
def port_id (ps : List Nat) : Nat :=
  u32be (ps.getD 0 0) (ps.getD 1 0) (ps.getD 2 0) (ps.getD 3 0)

/-- Port timestamp (bytes 8-15 of the port header region, big-endian). -/
def port_timestamp (ps : List Nat) : Nat :=
  u64be (ps.getD 8 0) (ps.getD 9 0) (ps.getD 10 0) (ps.getD 11 0)
    (ps.getD 12 0) (ps.getD 13 0) (ps.getD 14 0) (ps.getD 15 0)

/-- Payload following the 24-byte port header. -/
def port_payload (ps : List Nat) : List Nat := ps.drop 24

/-! ## SMS cube header (CubeHeaderSlice) and bin properties -/

/-- Parsed radar cube header, CubeHeader in src/eth.rs. -/
structure CubeHeader where
  imag_offset : Int
  real_offset : Int
  range_gate_offset : Int
  doppler_bin_offset : Int
  rx_channel_offset : Int
  chirp_type_offset : Int
  range_gates : Int
  first_range_gate : Int
  doppler_bins : Int
  rx_channels : Int
  chirp_types : Int
  element_size : Int
  element_type : Int
  padding_bytes : Int
deriving DecidableEq, Repr

/-- Cube header region: port id 5 and at least 40 bytes of payload. -/
def cube_slice (s : List Nat) : Except SMSError (List Nat) :=
  match port_slice s with
  | .error e => .error e
  | .ok ps =>
    match port_id ps with
    | 5 =>
      if (port_payload ps).length < 40 then
        .error (.UnexpectedEndOfSlice (port_payload ps).length)
      else .ok (port_payload ps)
    | _ => .error .CubeHeaderMissing

/-- CubeHeaderSlice to_header: fixed big-endian field layout. -/
def parse_cube_header (cs : List Nat) : CubeHeader :=
  { imag_offset := i32be (cs.getD 0 0) (cs.getD 1 0) (cs.getD 2 0) (cs.getD 3 0)
    real_offset := i32be (cs.getD 4 0) (cs.getD 5 0) (cs.getD 6 0) (cs.getD 7 0)
    range_gate_offset :=
      i32be (cs.getD 8 0) (cs.getD 9 0) (cs.getD 10 0) (cs.getD 11 0)
    doppler_bin_offset :=
      i32be (cs.getD 12 0) (cs.getD 13 0) (cs.getD 14 0) (cs.getD 15 0)
    rx_channel_offset :=
      i32be (cs.getD 16 0) (cs.getD 17 0) (cs.getD 18 0) (cs.getD 19 0)
    chirp_type_offset :=
      i32be (cs.getD 20 0) (cs.getD 21 0) (cs.getD 22 0) (cs.getD 23 0)
    range_gates := i16be (cs.getD 24 0) (cs.getD 25 0)
    first_range_gate := i16be (cs.getD 26 0) (cs.getD 27 0)
    doppler_bins := i16be (cs.getD 28 0) (cs.getD 29 0)
    rx_channels := i8val (cs.getD 30 0)
    chirp_types := i8val (cs.getD 31 0)
    element_size := i8val (cs.getD 32 0)
    element_type := i8val (cs.getD 33 0)
    padding_bytes := i8val (cs.getD 39 0) }

/-- Sample bytes following the cube header and its padding bytes. -/
def cube_payload (cs : List Nat) : List Nat := cs.drop (40 + cs.getD 39 0)

/-- Bin properties region: port id 63 and at least 12 bytes.  The source
decodes three f32 values; since no claim inspects the floats we keep the
raw 12-byte big-endian body. -/
def bin_slice (s : List Nat) : Except SMSError (List Nat) :=
  match port_slice s with
  | .error e => .error e
  | .ok ps =>
    match port_id ps with
    | 63 =>
      if (port_payload ps).length < 12 then
        .error (.UnexpectedEndOfSlice (port_payload ps).length)
      else .ok ((port_payload ps).take 12)
    | _ => .error .BinPropertiesMissing

/-! ## Radar cube reader state (RadarCubeReader in src/eth.rs) -/

/-- One cube element, Complex of i16.  We keep the raw 16-bit patterns as
naturals: the first component is the real part, the second the imaginary
part.  The source reinterprets each big-endian u32 word as a Complex of
i16 on a little-endian host, so the real part comes from bytes 2-3 and
the imaginary part from bytes 0-1 of the word. -/
abbrev Elem : Type := Nat × Nat

deriving instance DecidableEq for Except

/-- Sentinel element marking unwritten cube positions. -/
def sentinel : Elem := (32767, 32767)

/-- chunks_exact(4) over the sample bytes followed by the unsafe
reinterpretation of the Vec of u32 as Complex of i16 (little-endian
host): a trailing chunk shorter than 4 bytes is dropped. -/
def parseElems : List Nat → List Elem
  | c0 :: c1 :: c2 :: c3 :: rest => (u16be c2 c3, u16be c0 c1) :: parseElems rest
  | _ => []

/-- Published radar cube, RadarCube in src/eth.rs.  The ndarray Array4 is
modelled by its shape plus the flat element list in row-major order. -/
structure RadarCube where
  timestamp : Nat
  frame_counter : Nat
  packets_captured : Nat
  packets_skipped : Nat
  missing_data : Nat
  bin_properties : List Nat
  shape : List Nat
  data : List Elem
deriving DecidableEq, Repr

/-- Reassembler state, RadarCubeReader in src/eth.rs.  Wrapping u16
counters are naturals kept below 2 to the 16 by explicit reduction. -/
structure RadarCubeReader where
  timestamp : Nat
  frame_counter : Nat
  first_message : Nat
  message_counter : Nat
  received_messages : Nat
  packets_captured : Nat
  packets_skipped : Nat
  error : Option SMSError
  cube_header : Option CubeHeader
  cube_index : Nat
  cube_captured : Nat
  cube : List Elem
deriving DecidableEq, Repr

/-- RadarCubeReader new / default. -/
def RadarCubeReader.new : RadarCubeReader :=
  { timestamp := 0, frame_counter := 0, first_message := 0
    message_counter := 0, received_messages := 0, packets_captured := 0
    packets_skipped := 0, error := none, cube_header := none
    cube_index := 0, cube_captured := 0, cube := [] }

/-- Shape of the cube as computed by RadarCubeReader shape when the cube
header is present: chirp_types, range_gates, rx_channels, doppler_bins,
each converted from its signed type with an as-usize cast. -/
def shapeOf (h : CubeHeader) : List Nat :=
  [asUsize h.chirp_types, asUsize h.range_gates, asUsize h.rx_channels,
   asUsize h.doppler_bins]

/-- Cube volume in elements: product of the shape. -/
def volumeOf (h : CubeHeader) : Nat := (shapeOf h).prod

/-- Row-major flat index of a 4-dimensional position under shape
ct, rg, rx, db (ndarray default layout). -/
def flatIdx (rg rx db i j k l : Nat) : Nat := ((i * rg + j) * rx + k) * db + l

/-- The frame_footer reshaping: dst and src are split at half the doppler
axis and cross-assigned (dst position l reads src position l plus half
when l is below half, l minus half otherwise), and afterwards axis 1 is
inverted (range position j reads rg minus 1 minus j).  This is the flat
row-major transcription of the split_at / assign / invert_axis calls for
an even doppler count. -/
def recenterInvert (ct rg rx db : Nat) (src : List Elem) : List Elem :=
  (List.range (ct * rg * rx * db)).map fun n =>
    let i := n / (rg * rx * db)
    let j := n / (rx * db) % rg
    let k := n / db % rx
    let l := n % db
    let jSrc := rg - 1 - j
    let lSrc := if l < db / 2 then l + db / 2 else l - db / 2
    src.getD (flatIdx rg rx db i jSrc k lSrc) sentinel

/-- In-place write of the first k parsed elements at position idx of the
cube buffer (copy_from_slice in frame_data). -/
def writeAt (cube : List Elem) (idx : Nat) (es : List Elem) (k : Nat) :
    List Elem :=
  cube.take idx ++ es.take k ++ cube.drop (idx + k)

/-- Result of one read call: the updated reader state together with
either an emitted cube, nothing, or an error.  A panic in the source
(unwrap of None, out-of-bounds copy, ndarray shape mismatch) is the
Option value none at the outer level. -/
abbrev ReadResult : Type :=
  RadarCubeReader × Except SMSError (Option RadarCube)

/-- RadarCubeReader start_of_frame.  The source first resets the whole
state, then fills it field by field; an error from the question-mark
operator returns with the fields assigned so far, and the unwrap of a
missing message counter or an oversized first chunk panics. -/
def start_of_frame (s : List Nat) : Option ReadResult :=
  let r0 := RadarCubeReader.new
  match port_slice s with
  | .error e => some (r0, .error e)
  | .ok ps =>
    let r1 := { r0 with
      timestamp := port_timestamp ps
      frame_counter :=
        match debug_slice s with
        | .ok d => dbg_frame_counter d
        | .error _ => 0 }
    match message_counter s with
    | none => none
    | some mc =>
      let r2 := { r1 with
        first_message := mc % 65536, message_counter := mc % 65536
        received_messages := 1 }
      match cube_slice s with
      | .error e => some (r2, .error e)
      | .ok cs =>
        let h := parse_cube_header cs
        let vol := volumeOf h
        let es := parseElems (cube_payload cs)
        if es.length ≤ vol then
          some ({ r2 with
            cube_header := some h
            cube := es ++ List.replicate (vol - es.length) sentinel
            cube_index := es.length
            cube_captured := es.length
            packets_captured := 1 }, .ok none)
        else none

/-- RadarCubeReader frame_footer.  Mirrors the source checks in order:
missing cube header, frame counter mismatch and a latched error all reset
the state; missing cube data returns an error without resetting; the
success path reshapes the buffer (recenterInvert), reads the bin
properties (panicking when absent) and resets the state. -/
def frame_footer (r : RadarCubeReader) (s : List Nat) : Option ReadResult :=
  match r.cube_header with
  | none => some (RadarCubeReader.new, .error .CubeHeaderMissing)
  | some h =>
    if r.frame_counter ≠
        (match debug_slice s with
         | .ok d => dbg_frame_counter d
         | .error _ => 0) then
      some (RadarCubeReader.new, .error .FrameCounterError)
    else
      match r.error with
      | some e => some (RadarCubeReader.new, .error e)
      | none =>
        if r.cube_index < r.cube.length then
          some (r, .error (.MissingCubeData r.cube_index r.cube.length))
        else
          let sh := shapeOf h
          let vol := volumeOf h
          if r.cube.length ≠ vol then none
          else if (sh.getD 3 0) % 2 ≠ 0 then none
          else
            match bin_slice s with
            | .error _ => none
            | .ok bp =>
              some (RadarCubeReader.new, .ok (some
                { timestamp := r.timestamp
                  frame_counter := r.frame_counter
                  packets_captured := r.packets_captured
                  packets_skipped := r.packets_skipped
                  missing_data := vol - r.cube_captured
                  bin_properties := bp
                  shape := sh
                  data := recenterInvert (sh.getD 0 0) (sh.getD 1 0)
                    (sh.getD 2 0) (sh.getD 3 0) r.cube }))

/-- RadarCubeReader frame_data: data and end-of-data packets.  A missing
cube header is silently ignored; a frame counter mismatch latches
FrameCounterError and fast-forwards the write index; a message counter
gap advances the index by gap times a quarter of the payload length and
counts the gap in packets_skipped while the buffer is not yet full;
finally as many elements as fit are copied at the write index. -/
def frame_data (r : RadarCubeReader) (s : List Nat) : Option ReadResult :=
  match r.cube_header with
  | none => some (r, .ok none)
  | some _ =>
    let fcPkt :=
      match debug_slice s with
      | .ok d => dbg_frame_counter d
      | .error _ => 0
    if r.frame_counter ≠ fcPkt then
      some ({ r with error := some .FrameCounterError
                     cube_index := r.cube.length }, .ok none)
    else
      match message_counter s with
      | none => some (r, .error .MessageCounterMissing)
      | some mcRaw =>
        let mc := mcRaw % 65536
        let expected := (r.message_counter + 1) % 65536
        let payload :=
          match debug_slice s with
          | .ok d => dbg_payload d
          | .error _ => []
        let r1 : RadarCubeReader := { r with
          message_counter := mc
          received_messages := (r.received_messages + 1) % 65536 }
        let r2 : RadarCubeReader :=
          if expected ≠ mc then
            let gap := (mc + 65536 - expected) % 65536
            let offset := gap * payload.length / 4
            let r2a : RadarCubeReader :=
              { r1 with cube_index := r1.cube_index + offset }
            if r2a.cube_index < r2a.cube.length then
              { r2a with
                packets_skipped := (r2a.packets_skipped + gap) % 65536 }
            else r2a
          else r1
        if r2.cube_index < r2.cube.length then
          let es := parseElems payload
          let k := min es.length (r2.cube.length - r2.cube_index)
          some ({ r2 with
            packets_captured := (r2.packets_captured + 1) % 65536
            cube := writeAt r2.cube r2.cube_index es k
            cube_index := r2.cube_index + es.length
            cube_captured := r2.cube_captured + k }, .ok none)
        else some (r2, .ok none)

/-- RadarCubeReader read: parse the transport and debug headers, then
dispatch on the debug flags (START_OF_FRAME 1, FRAME_FOOTER 3,
FRAME_DATA 0, END_OF_DATA 2). -/
def RadarCubeReader.read (r : RadarCubeReader) (s : List Nat) :
    Option ReadResult :=
  match transport_from_slice s with
  | .error e => some (r, .error e)
  | .ok _ =>
    match debug_slice s with
    | .error e => some (r, .error e)
    | .ok d =>
      match dbg_flags d with
      | 1 => start_of_frame s
      | 3 => frame_footer r s
      | 0 => frame_data r s
      | 2 => frame_data r s
      | f => some (r, .error (.InvalidDebugFlags f))

/-- Fold read over a list of packets, stopping at the first panic and
collecting the per-packet results. -/
def readStream (r : RadarCubeReader) :
    List (List Nat) →
      Option (RadarCubeReader × List (Except SMSError (Option RadarCube)))
  | [] => some (r, [])
  | p :: ps =>
    match r.read p with
    | none => none
    | some (r1, res) =>
      match readStream r1 ps with
      | none => none
      | some (r2, l) => some (r2, res :: l)

/-! ## Well-formed SMS packet constructors

These build the byte images of SMS packets as the sensor emits them and
the test vectors exercise them: a 14-byte transport header carrying only
the optional message counter (flags low byte 0x01), application protocol
5, followed by the debug header and, for start-of-frame and footer
packets, the port header and its payload. -/

/-- Low and high byte split, big-endian, 16 bits. -/
def be16 (n : Nat) : List Nat := [n / 256 % 256, n % 256]

/-- Big-endian byte split, 32 bits. -/
def be32 (n : Nat) : List Nat :=
  [n / 16777216 % 256, n / 65536 % 256, n / 256 % 256, n % 256]

/-- Transport header with only the message counter optional field
(header length 14), application protocol 5, followed by the payload. -/
def mkTransport (mc : Nat) (payload : List Nat) : List Nat :=
  0x7E :: 1 :: 14 :: (payload.length / 256 % 256) :: (payload.length % 256)
    :: 5 :: 0 :: 0 :: 0 :: 1 :: (mc / 256 % 256) :: (mc % 256) :: 0 :: 0
    :: payload

/-- Transport header without any optional field (header length 12,
flags low byte 0): the message counter is absent. -/
def mkTransportNoMC (payload : List Nat) : List Nat :=
  0x7E :: 1 :: 12 :: (payload.length / 256 % 256) :: (payload.length % 256)
    :: 5 :: 0 :: 0 :: 0 :: 0 :: 0 :: 0 :: payload

/-- Debug header: frame counter, flags, zero frame delay and reserved. -/
def mkDebug (fc flags : Nat) (rest : List Nat) : List Nat :=
  be32 fc ++ flags :: 0 :: 0 :: 0 :: rest

/-- Port header: id, zero interface versions, zero timestamp, zero size
and trailing bytes, then the payload. -/
def mkPort (id : Nat) (rest : List Nat) : List Nat :=
  be32 id ++ [0, 0, 0, 0] ++ List.replicate 8 0 ++ [0, 0, 0, 0, 0, 0, 0, 0]
    ++ rest

/-- Cube header bytes: zero memory offsets, the four shape fields,
element size 4, no padding, then the first sample chunk. -/
def mkCubeHeaderBytes (rg db rx ct : Nat) (rest : List Nat) : List Nat :=
  List.replicate 24 0 ++ be16 rg ++ [0, 0] ++ be16 db
    ++ rx :: ct :: 4 :: 0 :: 0 :: 0 :: 0 :: 0 :: 0 :: 0 :: rest

/-- A START_OF_FRAME packet (debug flags 1) announcing a cube of shape
ct, rg, rx, db and carrying the first sample bytes. -/
def mkSof (fc mc rg db rx ct : Nat) (samples : List Nat) : List Nat :=
  mkTransport mc (mkDebug fc 1 (mkPort 5 (mkCubeHeaderBytes rg db rx ct samples)))

/-- A FRAME_DATA packet (debug flags 0) carrying raw sample bytes. -/
def mkData (fc mc : Nat) (samples : List Nat) : List Nat :=
  mkTransport mc (mkDebug fc 0 samples)

/-- A FRAME_FOOTER packet (debug flags 3) carrying the 12-byte bin
properties body on port 63. -/
def mkFooter (fc : Nat) : List Nat :=
  mkTransport 0 (mkDebug fc 3 (mkPort 63 (List.replicate 12 0)))

/-- Consecutive FRAME_DATA packets: each message counter is the previous
one plus 1 modulo 2 to the 16, starting from the given counter. -/
def mkDataStream (fc : Nat) : Nat → List (List Nat) → List (List Nat)
  | _, [] => []
  | mc, p :: ps =>
    mkData fc ((mc + 1) % 65536) p :: mkDataStream fc ((mc + 1) % 65536) ps

/-! ## Parse lemmas for the packet constructors -/

/-- Recombining the two base-256 digits of a value gives it modulo 2^16. -/
theorem u16be_digits (n : Nat) : u16be (n / 256 % 256) (n % 256) = n % 65536 := by
  unfold u16be; omega

/-- Recombining the four base-256 digits of a value below 2^32 gives it back. -/
theorem u32be_digits (n : Nat) (h : n < 4294967296) :
    u32be (n / 16777216 % 256) (n / 65536 % 256) (n / 256 % 256) (n % 256) = n := by
  unfold u32be; omega

/-- Signed 16-bit read of the digits of a value below 2^15. -/
theorem i16be_digits (n : Nat) (h : n < 32768) :
    i16be (n / 256 % 256) (n % 256) = (n : Int) := by
  unfold i16be u16be
  have h1 : (n / 256 % 256 * 256 + n % 256) % 65536 = n := by omega
  rw [h1]
  rw [if_pos h]

/-- Signed 8-bit read of a byte below 2^7. -/
theorem i8val_small (n : Nat) (h : n < 128) : i8val n = (n : Int) := by
  unfold i8val
  have h1 : n % 256 = n := by omega
  rw [h1, if_pos h]

/-- The as-usize cast of a nonnegative value below 2^64 is the identity. -/
theorem asUsize_coe (n : Nat) (h : n < 18446744073709551616) :
    asUsize (n : Int) = n := by
  unfold asUsize
  omega

theorem mkTransport_sizes (mc : Nat) (p : List Nat) :
    message_counter_size (mkTransport mc p) = 2 ∧
      client_id_size (mkTransport mc p) = 0 ∧
      data_id_size (mkTransport mc p) = 0 ∧
      segmentation_size (mkTransport mc p) = 0 := by
  refine ⟨?_, ?_, ?_, ?_⟩ <;>
    simp [message_counter_size, client_id_size, data_id_size,
      segmentation_size, mkTransport]

theorem mkTransport_from_slice (mc : Nat) (p : List Nat) :
    transport_from_slice (mkTransport mc p) = .ok () := by
  obtain ⟨h1, h2, h3, h4⟩ := mkTransport_sizes mc p
  have hco : crc_offset (mkTransport mc p) = 12 := by
    unfold crc_offset; rw [h1, h2, h3, h4]
  have hlen : (mkTransport mc p).length = 14 + p.length := by
    simp [mkTransport]; omega
  have h0 : (mkTransport mc p).getD 0 0 = 0x7E := by simp [mkTransport]
  have hh2 : (mkTransport mc p).getD 2 0 = 14 := by simp [mkTransport]
  have hh3 : (mkTransport mc p).getD 3 0 = p.length / 256 % 256 := by
    simp [mkTransport]
  have hh4 : (mkTransport mc p).getD 4 0 = p.length % 256 := by
    simp [mkTransport]
  unfold transport_from_slice
  rw [hco, hlen, h0, hh2, hh3, hh4]
  have hu : u16be (p.length / 256 % 256) (p.length % 256) ≤ p.length := by
    unfold u16be; omega
  rw [if_neg (by omega), if_neg (by simp), if_neg (by omega), if_neg (by omega),
    if_neg (by omega)]

theorem mkTransport_payload (mc : Nat) (p : List Nat) :
    transport_payload (mkTransport mc p) = p := by
  obtain ⟨h1, h2, h3, h4⟩ := mkTransport_sizes mc p
  have hl : header_len (mkTransport mc p) = 14 := by
    unfold header_len; rw [h1, h2, h3, h4]
  unfold transport_payload
  rw [hl]
  simp [mkTransport]

theorem mkTransport_message_counter (mc : Nat) (p : List Nat) :
    message_counter (mkTransport mc p) = some (mc % 65536) := by
  obtain ⟨h1, _, _, _⟩ := mkTransport_sizes mc p
  unfold message_counter
  rw [h1]
  have h10 : (mkTransport mc p).getD 10 0 = mc / 256 % 256 := by
    simp [mkTransport]
  have h11 : (mkTransport mc p).getD 11 0 = mc % 256 := by
    simp [mkTransport]
  rw [if_pos (by omega), h10, h11, u16be_digits]

theorem mkTransport_app5 (mc : Nat) (p : List Nat) :
    application_protocol (mkTransport mc p) = 5 := by
  simp [application_protocol, mkTransport]

theorem mkDebug_length (fc flags : Nat) (rest : List Nat) :
    (mkDebug fc flags rest).length = 8 + rest.length := by
  simp [mkDebug, be32]; omega

theorem mkDebug_debug_slice (mc fc flags : Nat) (rest : List Nat) :
    debug_slice (mkTransport mc (mkDebug fc flags rest)) =
      .ok (mkDebug fc flags rest) := by
  unfold debug_slice
  rw [mkTransport_app5, mkTransport_payload, mkDebug_length]
  rw [if_neg (by simp), if_neg (by omega)]

theorem mkDebug_flags (fc flags : Nat) (rest : List Nat) :
    dbg_flags (mkDebug fc flags rest) = flags := by
  simp [dbg_flags, mkDebug, be32]

theorem mkDebug_frame_counter (fc flags : Nat) (rest : List Nat)
    (h : fc < 4294967296) : dbg_frame_counter (mkDebug fc flags rest) = fc := by
  have e0 : (mkDebug fc flags rest).getD 0 0 = fc / 16777216 % 256 := by
    simp [mkDebug, be32]
  have e1 : (mkDebug fc flags rest).getD 1 0 = fc / 65536 % 256 := by
    simp [mkDebug, be32]
  have e2 : (mkDebug fc flags rest).getD 2 0 = fc / 256 % 256 := by
    simp [mkDebug, be32]
  have e3 : (mkDebug fc flags rest).getD 3 0 = fc % 256 := by
    simp [mkDebug, be32]
  unfold dbg_frame_counter
  rw [e0, e1, e2, e3, u32be_digits fc h]

theorem mkDebug_payload (fc flags : Nat) (rest : List Nat) :
    dbg_payload (mkDebug fc flags rest) = rest := by
  simp [dbg_payload, mkDebug, be32]

theorem mkPort_length (id : Nat) (rest : List Nat) :
    (mkPort id rest).length = 24 + rest.length := by
  simp [mkPort, be32]; omega

theorem mkPort_port_slice (mc fc id : Nat) (rest : List Nat) :
    port_slice (mkTransport mc (mkDebug fc 1 (mkPort id rest))) =
      .ok (mkPort id rest) := by
  unfold port_slice
  simp only [mkTransport_app5, mkDebug_debug_slice, mkDebug_flags,
    mkDebug_payload, mkPort_length]
  rw [if_neg (by omega)]

theorem mkPort_port_slice_footer (mc fc id : Nat) (rest : List Nat) :
    port_slice (mkTransport mc (mkDebug fc 3 (mkPort id rest))) =
      .ok (mkPort id rest) := by
  unfold port_slice
  simp only [mkTransport_app5, mkDebug_debug_slice, mkDebug_flags,
    mkDebug_payload, mkPort_length]
  rw [if_neg (by omega)]

theorem mkPort_id (id : Nat) (rest : List Nat) (h : id < 4294967296) :
    port_id (mkPort id rest) = id := by
  have e0 : (mkPort id rest).getD 0 0 = id / 16777216 % 256 := by
    simp [mkPort, be32]
  have e1 : (mkPort id rest).getD 1 0 = id / 65536 % 256 := by
    simp [mkPort, be32]
  have e2 : (mkPort id rest).getD 2 0 = id / 256 % 256 := by
    simp [mkPort, be32]
  have e3 : (mkPort id rest).getD 3 0 = id % 256 := by
    simp [mkPort, be32]
  unfold port_id
  rw [e0, e1, e2, e3, u32be_digits id h]

theorem mkPort_timestamp (id : Nat) (rest : List Nat) :
    port_timestamp (mkPort id rest) = 0 := by
  refine Eq.trans ?_ (show u64be 0 0 0 0 0 0 0 0 = 0 by rfl)
  unfold port_timestamp
  have e8 : (mkPort id rest).getD 8 0 = 0 := by simp [mkPort, be32]
  have e9 : (mkPort id rest).getD 9 0 = 0 := by simp [mkPort, be32]
  have e10 : (mkPort id rest).getD 10 0 = 0 := by simp [mkPort, be32]
  have e11 : (mkPort id rest).getD 11 0 = 0 := by simp [mkPort, be32]
  have e12 : (mkPort id rest).getD 12 0 = 0 := by simp [mkPort, be32]
  have e13 : (mkPort id rest).getD 13 0 = 0 := by simp [mkPort, be32]
  have e14 : (mkPort id rest).getD 14 0 = 0 := by simp [mkPort, be32]
  have e15 : (mkPort id rest).getD 15 0 = 0 := by simp [mkPort, be32]
  rw [e8, e9, e10, e11, e12, e13, e14, e15]

theorem mkPort_payload (id : Nat) (rest : List Nat) :
    port_payload (mkPort id rest) = rest := by
  simp [port_payload, mkPort, be32]

theorem mkCubeHeaderBytes_length (rg db rx ct : Nat) (samples : List Nat) :
    (mkCubeHeaderBytes rg db rx ct samples).length = 40 + samples.length := by
  simp [mkCubeHeaderBytes, be16]; omega

theorem mkSof_cube_slice (fc mc rg db rx ct : Nat) (samples : List Nat) :
    cube_slice (mkSof fc mc rg db rx ct samples) =
      .ok (mkCubeHeaderBytes rg db rx ct samples) := by
  unfold cube_slice mkSof
  simp only [mkPort_port_slice, mkPort_id 5 _ (by omega), mkPort_payload,
    mkCubeHeaderBytes_length]
  rw [if_neg (by omega)]

/-- The cube header announced by the constructed start-of-frame packet. -/
def Hdr (rg db rx ct : Nat) : CubeHeader :=
  { imag_offset := 0, real_offset := 0, range_gate_offset := 0
    doppler_bin_offset := 0, rx_channel_offset := 0, chirp_type_offset := 0
    range_gates := (rg : Int), first_range_gate := 0
    doppler_bins := (db : Int), rx_channels := (rx : Int)
    chirp_types := (ct : Int), element_size := 4, element_type := 0
    padding_bytes := 0 }

theorem mkCubeHeaderBytes_parse (rg db rx ct : Nat) (samples : List Nat)
    (hrg : rg < 32768) (hdb : db < 32768) (hrx : rx < 128) (hct : ct < 128) :
    parse_cube_header (mkCubeHeaderBytes rg db rx ct samples) =
      Hdr rg db rx ct := by
  have h24 : (mkCubeHeaderBytes rg db rx ct samples).getD 24 0 = rg / 256 % 256 := by
    simp [mkCubeHeaderBytes, be16]
  have h25 : (mkCubeHeaderBytes rg db rx ct samples).getD 25 0 = rg % 256 := by
    simp [mkCubeHeaderBytes, be16]
  have h28 : (mkCubeHeaderBytes rg db rx ct samples).getD 28 0 = db / 256 % 256 := by
    simp [mkCubeHeaderBytes, be16]
  have h29 : (mkCubeHeaderBytes rg db rx ct samples).getD 29 0 = db % 256 := by
    simp [mkCubeHeaderBytes, be16]
  have h30 : (mkCubeHeaderBytes rg db rx ct samples).getD 30 0 = rx := by
    simp [mkCubeHeaderBytes, be16]
  have h31 : (mkCubeHeaderBytes rg db rx ct samples).getD 31 0 = ct := by
    simp [mkCubeHeaderBytes, be16]
  unfold parse_cube_header Hdr
  simp only [h24, h25, h28, h29, h30, h31]
  simp [mkCubeHeaderBytes, be16, i16be_digits rg hrg, i16be_digits db hdb,
    i8val_small rx (by omega), i8val_small ct (by omega), i32be, i8val,
    u32be, u16be]
  refine ⟨by decide, ?_, ?_⟩ <;> (rw [if_pos (by omega)]; omega)

theorem mkCubeHeaderBytes_payload (rg db rx ct : Nat) (samples : List Nat) :
    cube_payload (mkCubeHeaderBytes rg db rx ct samples) = samples := by
  have h39 : (mkCubeHeaderBytes rg db rx ct samples).getD 39 0 = 0 := by
    simp [mkCubeHeaderBytes, be16]
  unfold cube_payload
  rw [h39]
  simp [mkCubeHeaderBytes, be16]

theorem mkFooter_bin_slice (fc : Nat) :
    bin_slice (mkFooter fc) = .ok (List.replicate 12 0) := by
  unfold bin_slice mkFooter
  simp only [mkPort_port_slice_footer, mkPort_id 63 _ (by omega),
    mkPort_payload]
  simp

theorem shapeOf_Hdr (rg db rx ct : Nat)
    (hrg : rg < 32768) (hdb : db < 32768) (hrx : rx < 128) (hct : ct < 128) :
    shapeOf (Hdr rg db rx ct) = [ct, rg, rx, db] := by
  unfold shapeOf Hdr
  simp only []
  rw [asUsize_coe ct (by omega), asUsize_coe rg (by omega),
    asUsize_coe rx (by omega), asUsize_coe db (by omega)]

theorem volumeOf_Hdr (rg db rx ct : Nat)
    (hrg : rg < 32768) (hdb : db < 32768) (hrx : rx < 128) (hct : ct < 128) :
    volumeOf (Hdr rg db rx ct) = ct * rg * rx * db := by
  unfold volumeOf
  rw [shapeOf_Hdr rg db rx ct hrg hdb hrx hct]
  simp [List.prod]
  ring

/-! ## Behaviour of read on constructed packets -/

/-- Reader state right after a constructed start-of-frame packet. -/
def sofState (fc mc rg db rx ct : Nat) (samples : List Nat) : RadarCubeReader :=
  let es := parseElems samples
  let vol := ct * rg * rx * db
  { timestamp := 0, frame_counter := fc, first_message := mc % 65536
    message_counter := mc % 65536, received_messages := 1
    packets_captured := 1, packets_skipped := 0, error := none
    cube_header := some (Hdr rg db rx ct)
    cube := es ++ List.replicate (vol - es.length) sentinel
    cube_index := es.length, cube_captured := es.length }

/-- Reading a constructed start-of-frame packet succeeds from any state
and resets the reader onto the new frame. -/
theorem read_mkSof (r : RadarCubeReader) (fc mc rg db rx ct : Nat)
    (samples : List Nat)
    (hrg : rg < 32768) (hdb : db < 32768) (hrx : rx < 128) (hct : ct < 128)
    (hfc : fc < 4294967296)
    (hfit : (parseElems samples).length ≤ ct * rg * rx * db) :
    r.read (mkSof fc mc rg db rx ct samples) =
      some (sofState fc mc rg db rx ct samples, .ok none) := by
  unfold RadarCubeReader.read mkSof
  simp only [mkTransport_from_slice, mkDebug_debug_slice, mkDebug_flags]
  unfold start_of_frame
  simp only [mkPort_port_slice, mkPort_timestamp, mkDebug_debug_slice,
    mkDebug_frame_counter fc 1 _ hfc, mkTransport_message_counter]
  rw [show cube_slice (mkTransport mc (mkDebug fc 1
        (mkPort 5 (mkCubeHeaderBytes rg db rx ct samples)))) =
      .ok (mkCubeHeaderBytes rg db rx ct samples) from
    mkSof_cube_slice fc mc rg db rx ct samples]
  simp only [mkCubeHeaderBytes_parse rg db rx ct samples hrg hdb hrx hct,
    mkCubeHeaderBytes_payload,
    volumeOf_Hdr rg db rx ct hrg hdb hrx hct]
  rw [if_pos hfit]
  simp [sofState, RadarCubeReader.new, Nat.mod_mod_of_dvd]

theorem writeAt_length (cube es : List Elem) (idx k : Nat)
    (h3 : idx + k ≤ cube.length) :
    (writeAt cube idx es k).length = cube.length + min k es.length - k := by
  simp [writeAt]
  omega

/-- Invariant maintained by the reassembler across an uninterrupted run
of data packets of one frame: the header and frame counter are fixed, no
error is latched, nothing was skipped, the captured element count is the
write index clamped to the volume, and the write index dominates the
clamped running element total n. -/
def ReaderInv (H : CubeHeader) (fc vol : Nat) (r : RadarCubeReader)
    (n : Nat) : Prop :=
  r.cube_header = some H ∧ r.frame_counter = fc ∧ r.error = none ∧
    r.message_counter < 65536 ∧ r.cube.length = vol ∧
    r.packets_skipped = 0 ∧ r.cube_captured = min r.cube_index vol ∧
    min n vol ≤ r.cube_index

/-- One constructed data packet with the consecutive message counter:
read succeeds with no output and the invariant advances by the packet
element count. -/
theorem read_mkData_step (H : CubeHeader) (fc vol : Nat)
    (r : RadarCubeReader) (n : Nat) (p : List Nat)
    (hfc : fc < 4294967296) (hinv : ReaderInv H fc vol r n) :
    ∃ r2, r.read (mkData fc ((r.message_counter + 1) % 65536) p) =
        some (r2, .ok none) ∧
      ReaderInv H fc vol r2 (n + (parseElems p).length) ∧
      r2.message_counter = (r.message_counter + 1) % 65536 ∧
      r2.timestamp = r.timestamp := by
  obtain ⟨hch, hfc2, herr, hmc, hlen, hskip, hcap, hidx⟩ := hinv
  unfold RadarCubeReader.read mkData
  simp only [mkTransport_from_slice, mkDebug_debug_slice, mkDebug_flags]
  unfold frame_data
  rw [hch]
  simp only [mkDebug_debug_slice, mkDebug_frame_counter fc 0 p hfc,
    mkTransport_message_counter, mkDebug_payload, hfc2]
  have hmceq : (r.message_counter + 1) % 65536 % 65536 % 65536 =
      (r.message_counter + 1) % 65536 := by omega
  rw [hmceq]
  rw [if_neg (show ¬(fc ≠ fc) from by omega)]
  rw [if_neg (show ¬((r.message_counter + 1) % 65536 ≠
      (r.message_counter + 1) % 65536) from by omega)]
  dsimp only
  by_cases hfull : r.cube_index < r.cube.length
  · rw [if_pos hfull]
    refine ⟨_, rfl, ⟨rfl, rfl, herr, ?_, ?_, hskip, ?_, ?_⟩, rfl, rfl⟩
    · show (r.message_counter + 1) % 65536 < 65536
      omega
    · show (writeAt r.cube r.cube_index (parseElems p)
        (min (parseElems p).length (r.cube.length - r.cube_index))).length = vol
      rw [writeAt_length _ _ _ _ (by omega)]
      omega
    · show r.cube_captured +
          min (parseElems p).length (r.cube.length - r.cube_index) =
        min (r.cube_index + (parseElems p).length) vol
      omega
    · show min (n + (parseElems p).length) vol ≤
        r.cube_index + (parseElems p).length
      omega
  · rw [if_neg hfull]
    refine ⟨_, rfl, ⟨rfl, rfl, herr, ?_, hlen, hskip, hcap, ?_⟩, rfl, rfl⟩
    · show (r.message_counter + 1) % 65536 < 65536
      omega
    · show min (n + (parseElems p).length) vol ≤ r.cube_index
      omega

/-- Running the reassembler over consecutive data packets keeps the
invariant, emits nothing, and advances the running element total by the
sum of the packet element counts. -/
theorem readStream_mkDataStream (H : CubeHeader) (fc vol : Nat)
    (hfc : fc < 4294967296) :
    ∀ (ps : List (List Nat)) (r : RadarCubeReader) (n : Nat),
      ReaderInv H fc vol r n →
      ∃ r2, readStream r (mkDataStream fc r.message_counter ps) =
          some (r2, List.replicate ps.length (.ok none)) ∧
        ReaderInv H fc vol r2
          (n + (ps.map fun p => (parseElems p).length).sum) ∧
        r2.timestamp = r.timestamp := by
  intro ps
  induction ps with
  | nil =>
    intro r n hinv
    exact ⟨r, rfl, by simpa using hinv, rfl⟩
  | cons p ps ih =>
    intro r n hinv
    obtain ⟨r2, hread, hinv2, hmc2, hts2⟩ :=
      read_mkData_step H fc vol r n p hfc hinv
    obtain ⟨r3, hrest, hinv3, hts3⟩ := ih r2 (n + (parseElems p).length) hinv2
    refine ⟨r3, ?_, ?_, hts3.trans hts2⟩
    · unfold mkDataStream
      unfold readStream
      rw [hread]
      dsimp only
      rw [← hmc2, hrest]
      rfl
    · simp only [List.map_cons, List.sum_cons]
      have : n + (parseElems p).length +
          (ps.map fun q => (parseElems q).length).sum =
        n + ((parseElems p).length +
          (ps.map fun q => (parseElems q).length).sum) := by omega
      rw [← this]
      exact hinv3

/-- Reading a constructed footer packet from a fully indexed, error-free
state publishes the cube and resets the reader. -/
theorem read_mkFooter (r : RadarCubeReader) (fc rg db rx ct : Nat)
    (hrg : rg < 32768) (hdb : db < 32768) (hrx : rx < 128) (hct : ct < 128)
    (hfc : fc < 4294967296) (heven : db % 2 = 0)
    (hch : r.cube_header = some (Hdr rg db rx ct))
    (hfc2 : r.frame_counter = fc) (herr : r.error = none)
    (hlen : r.cube.length = ct * rg * rx * db)
    (hidx : r.cube.length ≤ r.cube_index) :
    r.read (mkFooter fc) = some (RadarCubeReader.new, .ok (some
      { timestamp := r.timestamp
        frame_counter := fc
        packets_captured := r.packets_captured
        packets_skipped := r.packets_skipped
        missing_data := ct * rg * rx * db - r.cube_captured
        bin_properties := List.replicate 12 0
        shape := [ct, rg, rx, db]
        data := recenterInvert ct rg rx db r.cube })) := by
  unfold RadarCubeReader.read mkFooter
  simp only [mkTransport_from_slice, mkDebug_debug_slice, mkDebug_flags]
  unfold frame_footer
  rw [hch]
  simp only [mkDebug_debug_slice,
    mkDebug_frame_counter fc 3 _ hfc, hfc2, herr]
  rw [if_neg (show ¬(fc ≠ fc) from by omega)]
  rw [if_neg (show ¬(r.cube_index < r.cube.length) from by omega)]
  rw [show bin_slice (mkTransport 0 (mkDebug fc 3
      (mkPort 63 (List.replicate 12 0)))) = .ok (List.replicate 12 0) from
    mkFooter_bin_slice fc]
  simp only [shapeOf_Hdr rg db rx ct hrg hdb hrx hct,
    volumeOf_Hdr rg db rx ct hrg hdb hrx hct]
  rw [if_neg (show ¬(r.cube.length ≠ ct * rg * rx * db) from by omega)]
  have hgd3 : ([ct, rg, rx, db].getD 3 0) = db := rfl
  have hgd0 : ([ct, rg, rx, db].getD 0 0) = ct := rfl
  have hgd1 : ([ct, rg, rx, db].getD 1 0) = rg := rfl
  have hgd2 : ([ct, rg, rx, db].getD 2 0) = rx := rfl
  rw [hgd3, hgd0, hgd1, hgd2]
  rw [if_neg (show ¬(db % 2 ≠ 0) from by omega)]

theorem readStream_append (a b : List (List Nat)) :
    ∀ r : RadarCubeReader, readStream r (a ++ b) =
      match readStream r a with
      | none => none
      | some (r1, res) =>
        match readStream r1 b with
        | none => none
        | some (r2, res2) => some (r2, res ++ res2) := by
  have hstep : ∀ (p : List Nat) (rr : RadarCubeReader) (l : List (List Nat)),
      readStream rr (p :: l) =
        match rr.read p with
        | none => none
        | some (r1, res) =>
          match readStream r1 l with
          | none => none
          | some (r2, l2) => some (r2, res :: l2) := fun p rr l => rfl
  induction a with
  | nil =>
    intro r
    cases h : readStream r b with
    | none => simp [readStream, h]
    | some v => cases v with
      | mk r2 res2 => simp [readStream, h]
  | cons p a ih =>
    intro r
    rw [List.cons_append, hstep, hstep]
    cases hr : r.read p with
    | none => rfl
    | some v =>
      cases v with
      | mk r1 res =>
        dsimp only
        rw [ih r1]
        cases ha : readStream r1 a with
        | none => rfl
        | some w =>
          cases w with
          | mk r2 resa =>
            dsimp only
            cases hb : readStream r2 b with
            | none => rfl
            | some u =>
              cases u with
              | mk r3 resb => rfl

/-- C1: for any stream of SMS packets forming one complete cube — a
START_OF_FRAME announcing shape [ct, rg, rx, db], then consecutive
FRAME_DATA packets of the same frame whose message counters each increase
by one, jointly delivering at least the full cube volume, then a
FRAME_FOOTER — the RadarCube emitted at the footer has missing_data 0,
packets_skipped 0, and shape [chirp_types, range_gates, rx_channels,
doppler_bins] as read from the CubeHeader of the opening packet. -/
theorem radarCube_complete_stream
    (rg db rx ct fc mc0 : Nat) (sofPay : List Nat) (ps : List (List Nat))
    (hrg : rg < 32768) (hdb : db < 32768) (hrx : rx < 128) (hct : ct < 128)
    (hfc : fc < 4294967296) (heven : db % 2 = 0)
    (hn0 : (parseElems sofPay).length ≤ ct * rg * rx * db)
    (hfull : ct * rg * rx * db ≤ (parseElems sofPay).length +
        (ps.map fun p => (parseElems p).length).sum) :
    ∃ cube, readStream RadarCubeReader.new
        (mkSof fc mc0 rg db rx ct sofPay ::
          (mkDataStream fc (mc0 % 65536) ps ++ [mkFooter fc])) =
      some (RadarCubeReader.new,
        .ok none ::
          (List.replicate ps.length (.ok none) ++ [.ok (some cube)])) ∧
      cube.missing_data = 0 ∧ cube.packets_skipped = 0 ∧
      cube.shape = [ct, rg, rx, db] := by
  set vol := ct * rg * rx * db with hvol
  set r1 := sofState fc mc0 rg db rx ct sofPay with hr1
  have hinv1 : ReaderInv (Hdr rg db rx ct) fc vol r1
      (parseElems sofPay).length := by
    refine ⟨rfl, rfl, rfl, show mc0 % 65536 < 65536 by omega, ?_, rfl, ?_, ?_⟩
    · show (parseElems sofPay ++
        List.replicate (vol - (parseElems sofPay).length) sentinel).length = vol
      simp
      omega
    · show (parseElems sofPay).length =
        min (parseElems sofPay).length vol
      omega
    · show min (parseElems sofPay).length vol ≤ (parseElems sofPay).length
      omega
  have hmc1 : r1.message_counter = mc0 % 65536 := rfl
  obtain ⟨r2, hrun, hinv2, hts2⟩ :=
    readStream_mkDataStream (Hdr rg db rx ct) fc vol hfc ps r1
      (parseElems sofPay).length hinv1
  obtain ⟨hch2, hfc22, herr2, hmc2, hlen2, hskip2, hcap2, hidx2⟩ := hinv2
  have hidxfull : r2.cube.length ≤ r2.cube_index := by omega
  have hfoot := read_mkFooter r2 fc rg db rx ct hrg hdb hrx hct hfc heven
    hch2 hfc22 herr2 hlen2 hidxfull
  refine ⟨{ timestamp := r2.timestamp, frame_counter := fc
            packets_captured := r2.packets_captured
            packets_skipped := r2.packets_skipped
            missing_data := ct * rg * rx * db - r2.cube_captured
            bin_properties := List.replicate 12 0
            shape := [ct, rg, rx, db]
            data := recenterInvert ct rg rx db r2.cube }, ?_, ?_, ?_, ?_⟩
  · show readStream RadarCubeReader.new
      (mkSof fc mc0 rg db rx ct sofPay ::
        (mkDataStream fc (mc0 % 65536) ps ++ [mkFooter fc])) = _
    have hstep : readStream RadarCubeReader.new
        (mkSof fc mc0 rg db rx ct sofPay ::
          (mkDataStream fc (mc0 % 65536) ps ++ [mkFooter fc])) =
        match RadarCubeReader.new.read (mkSof fc mc0 rg db rx ct sofPay) with
        | none => none
        | some (ra, res) =>
          match readStream ra
              (mkDataStream fc (mc0 % 65536) ps ++ [mkFooter fc]) with
          | none => none
          | some (rb, l2) => some (rb, res :: l2) := rfl
    rw [hstep,
      read_mkSof RadarCubeReader.new fc mc0 rg db rx ct sofPay
        hrg hdb hrx hct hfc hn0]
    dsimp only
    rw [readStream_append]
    rw [show mkDataStream fc (mc0 % 65536) ps =
      mkDataStream fc r1.message_counter ps from rfl]
    rw [hrun]
    dsimp only
    have hfootstream : readStream r2 [mkFooter fc] =
        match r2.read (mkFooter fc) with
        | none => none
        | some (ra, res) =>
          match (some (ra, []) :
              Option (RadarCubeReader ×
                List (Except SMSError (Option RadarCube)))) with
          | none => none
          | some (rb, l2) => some (rb, res :: l2) := rfl
    rw [hfootstream, hfoot]
  · show ct * rg * rx * db - r2.cube_captured = 0
    omega
  · exact hskip2
  · rfl

/-- Witness for radarCube_complete_stream at a concrete 1x1x1x2 cube
delivered entirely in the start-of-frame packet. -/
theorem radarCube_complete_stream_witness :
    ∃ cube, readStream RadarCubeReader.new
        (mkSof 7 0 1 2 1 1 [0, 0, 0, 1, 0, 0, 0, 2] ::
          (mkDataStream 7 (0 % 65536) [] ++ [mkFooter 7])) =
      some (RadarCubeReader.new,
        .ok none ::
          (List.replicate ([] : List (List Nat)).length (.ok none) ++
            [.ok (some cube)])) ∧
      cube.missing_data = 0 ∧ cube.packets_skipped = 0 ∧
      cube.shape = [1, 1, 1, 2] :=
  radarCube_complete_stream 1 2 1 1 7 0 [0, 0, 0, 1, 0, 0, 0, 2] []
    (by decide) (by decide) (by decide) (by decide) (by decide) (by decide)
    (by decide) (by decide)

/-! ## The doppler-centering and range-inversion reshape (claim C2) -/

/-- Row-major flattening of a 4-dimensional element function. -/
def mkFlat (ct rg rx db : Nat) (f : Nat → Nat → Nat → Nat → Elem) :
    List Elem :=
  (List.range (ct * rg * rx * db)).map fun n =>
    f (n / (rg * rx * db)) (n / (rx * db) % rg) (n / db % rx) (n % db)

theorem getD_range_map {α : Type} (N n : Nat) (f : Nat → α) (d : α)
    (h : n < N) : ((List.range N).map f).getD n d = f n := by
  rw [List.getD_eq_getElem?_getD, List.getElem?_map, List.getElem?_range h]
  rfl

theorem flatIdx_lt (rg rx db ct i j k l : Nat)
    (hi : i < ct) (hj : j < rg) (hk : k < rx) (hl : l < db) :
    flatIdx rg rx db i j k l < ct * rg * rx * db := by
  unfold flatIdx
  have h2 : (i * rg + j) * rx + k < ct * rg * rx := by
    have h1 : i * rg + j < ct * rg := by
      calc i * rg + j < i * rg + rg := by omega
        _ = (i + 1) * rg := by ring
        _ ≤ ct * rg := Nat.mul_le_mul_right rg (by omega)
    calc (i * rg + j) * rx + k < (i * rg + j) * rx + rx := by omega
      _ = (i * rg + j + 1) * rx := by ring
      _ ≤ ct * rg * rx := Nat.mul_le_mul_right rx (by omega)
  calc ((i * rg + j) * rx + k) * db + l
      < ((i * rg + j) * rx + k) * db + db := by omega
    _ = ((i * rg + j) * rx + k + 1) * db := by ring
    _ ≤ ct * rg * rx * db := Nat.mul_le_mul_right db (by omega)

theorem flatIdx_div_mod (rg rx db i j k l : Nat)
    (hj : j < rg) (hk : k < rx) (hl : l < db) :
    flatIdx rg rx db i j k l % db = l ∧
    flatIdx rg rx db i j k l / db % rx = k ∧
    flatIdx rg rx db i j k l / (rx * db) % rg = j ∧
    flatIdx rg rx db i j k l / (rg * rx * db) = i := by
  have hdb : 0 < db := by omega
  have hrx2 : 0 < rx := by omega
  have hrg2 : 0 < rg := by omega
  have hq : flatIdx rg rx db i j k l / db = (i * rg + j) * rx + k := by
    unfold flatIdx
    rw [show ((i * rg + j) * rx + k) * db + l =
      db * ((i * rg + j) * rx + k) + l by ring]
    rw [Nat.mul_add_div hdb, Nat.div_eq_of_lt hl]
    omega
  have hq2 : flatIdx rg rx db i j k l / (rx * db) = i * rg + j := by
    rw [show rx * db = db * rx by ring, ← Nat.div_div_eq_div_mul, hq]
    rw [show (i * rg + j) * rx + k = rx * (i * rg + j) + k by ring]
    rw [Nat.mul_add_div hrx2, Nat.div_eq_of_lt hk]
    omega
  refine ⟨?_, ?_, ?_, ?_⟩
  · unfold flatIdx
    rw [show ((i * rg + j) * rx + k) * db + l =
      db * ((i * rg + j) * rx + k) + l by ring]
    rw [Nat.mul_add_mod, Nat.mod_eq_of_lt hl]
  · rw [hq, show (i * rg + j) * rx + k = rx * (i * rg + j) + k by ring,
      Nat.mul_add_mod, Nat.mod_eq_of_lt hk]
  · rw [hq2, show i * rg + j = rg * i + j by ring, Nat.mul_add_mod,
      Nat.mod_eq_of_lt hj]
  · rw [show rg * rx * db = rx * db * rg by ring,
      ← Nat.div_div_eq_div_mul, hq2]
    rw [show i * rg + j = rg * i + j by ring, Nat.mul_add_div hrg2,
      Nat.div_eq_of_lt hj]
    omega

theorem mkFlat_getD (ct rg rx db : Nat) (f : Nat → Nat → Nat → Nat → Elem)
    (i j k l : Nat) (d : Elem)
    (hi : i < ct) (hj : j < rg) (hk : k < rx) (hl : l < db) :
    (mkFlat ct rg rx db f).getD (flatIdx rg rx db i j k l) d = f i j k l := by
  unfold mkFlat
  rw [getD_range_map _ _ _ _ (flatIdx_lt rg rx db ct i j k l hi hj hk hl)]
  obtain ⟨hml, hmk, hmj, hmi⟩ := flatIdx_div_mod rg rx db i j k l hj hk hl
  rw [hmi, hmj, hmk, hml]

/-- The reshape performed at the frame footer reads position
(i, rg-1-j, k, (l + db/2) mod db) of the source buffer into position
(i, j, k, l): the doppler halves are swapped and the range axis
inverted. -/
theorem recenterInvert_getD (ct rg rx db : Nat)
    (f : Nat → Nat → Nat → Nat → Elem) (i j k l : Nat)
    (heven : db % 2 = 0)
    (hi : i < ct) (hj : j < rg) (hk : k < rx) (hl : l < db) :
    (recenterInvert ct rg rx db (mkFlat ct rg rx db f)).getD
        (flatIdx rg rx db i j k l) sentinel =
      f i (rg - 1 - j) k ((l + db / 2) % db) := by
  unfold recenterInvert
  rw [getD_range_map _ _ _ _ (flatIdx_lt rg rx db ct i j k l hi hj hk hl)]
  obtain ⟨hml, hmk, hmj, hmi⟩ := flatIdx_div_mod rg rx db i j k l hj hk hl
  simp only [hmi, hmj, hmk, hml]
  by_cases hc : l < db / 2
  · rw [if_pos hc]
    rw [mkFlat_getD ct rg rx db f i (rg - 1 - j) k (l + db / 2) sentinel hi
      (by omega) hk (by omega)]
    rw [Nat.mod_eq_of_lt (show l + db / 2 < db by omega)]
  · rw [if_neg hc]
    rw [mkFlat_getD ct rg rx db f i (rg - 1 - j) k (l - db / 2) sentinel hi
      (by omega) hk (by omega)]
    rw [Nat.mod_eq_sub_mod (show db ≤ l + db / 2 by omega)]
    rw [show l + db / 2 - db = l - db / 2 by omega]
    rw [Nat.mod_eq_of_lt (show l - db / 2 < db by omega)]

/-- C2: for a completely filled in-flight cube of shape [ct, rg, rx, db]
whose element at position [i][j][k][l] carries the 32-bit pattern with
high half l and low half j (as the Elem pair (j, l), real part j and
imaginary part l), the RadarCube emitted at FRAME_FOOTER satisfies
out[i][j][k][l] = ((l + db/2) mod db in the high half, rg - 1 - j in the
low half): the two doppler halves are swapped and the range axis is
inverted. -/
theorem radarCube_doppler_center_range_invert
    (r : RadarCubeReader) (fc rg db rx ct i j k l : Nat)
    (hrg : rg < 32768) (hdb : db < 32768) (hrx : rx < 128) (hct : ct < 128)
    (hfc : fc < 4294967296) (heven : db % 2 = 0)
    (hch : r.cube_header = some (Hdr rg db rx ct))
    (hfc2 : r.frame_counter = fc) (herr : r.error = none)
    (hlen : r.cube.length = ct * rg * rx * db)
    (hidx : r.cube.length ≤ r.cube_index)
    (hbuf : r.cube = mkFlat ct rg rx db (fun _ jb _ lb => (jb, lb)))
    (hi : i < ct) (hj : j < rg) (hk : k < rx) (hl : l < db) :
    ∃ cube, r.read (mkFooter fc) =
        some (RadarCubeReader.new, .ok (some cube)) ∧
      cube.data.getD (flatIdx rg rx db i j k l) sentinel =
        (rg - 1 - j, (l + db / 2) % db) := by
  have hfoot := read_mkFooter r fc rg db rx ct hrg hdb hrx hct hfc heven
    hch hfc2 herr hlen hidx
  refine ⟨_, hfoot, ?_⟩
  show (recenterInvert ct rg rx db r.cube).getD
      (flatIdx rg rx db i j k l) sentinel = (rg - 1 - j, (l + db / 2) % db)
  rw [hbuf,
    recenterInvert_getD ct rg rx db (fun _ jb _ lb => (jb, lb)) i j k l
      heven hi hj hk hl]

/-- Witness for radarCube_doppler_center_range_invert on a 1x2x1x2 cube. -/
theorem radarCube_doppler_center_range_invert_witness :
    ∃ cube, (sofState 7 0 2 2 1 1
          [0, 0, 0, 0, 0, 1, 0, 0, 0, 0, 0, 1, 0, 1, 0, 1]).read
        (mkFooter 7) = some (RadarCubeReader.new, .ok (some cube)) ∧
      cube.data.getD (flatIdx 2 1 2 0 1 0 1) sentinel =
        (2 - 1 - 1, (1 + 2 / 2) % 2) :=
  radarCube_doppler_center_range_invert
    (sofState 7 0 2 2 1 1 [0, 0, 0, 0, 0, 1, 0, 0, 0, 0, 0, 1, 0, 1, 0, 1])
    7 2 2 1 1 0 1 0 1 (by decide) (by decide) (by decide) (by decide)
    (by decide) (by decide) (by decide) (by decide) (by decide) (by decide)
    (by decide) (by decide) (by decide) (by decide) (by decide) (by decide)

/-! ## Error behaviour at the frame footer (claims C3, C4, C10) -/

/-- C3 counterexample: a start-of-frame packet followed by a footer of
the same frame with the cube only partially filled makes read return
MissingCubeData while leaving the reader in its accumulated state, which
differs from the initial state: the MissingCubeData path does not reset
the machine. -/
theorem missing_cube_data_no_reset_cex :
    RadarCubeReader.new.read (mkSof 7 0 1 2 1 1 [0, 0, 0, 1]) =
      some (sofState 7 0 1 2 1 1 [0, 0, 0, 1], .ok none) ∧
    (sofState 7 0 1 2 1 1 [0, 0, 0, 1]).read (mkFooter 7) =
      some (sofState 7 0 1 2 1 1 [0, 0, 0, 1],
        .error (.MissingCubeData 1 2)) ∧
    sofState 7 0 1 2 1 1 [0, 0, 0, 1] ≠ RadarCubeReader.new := by decide

/-- C3 amended: at a FRAME_FOOTER the reader is reset to its initial
state on the CubeHeaderMissing, FrameCounterError and latched-error
paths, but the call returning MissingCubeData leaves every accumulator
(frame counter, message counters, cube header, cube buffer, write index)
exactly as it was: the reader is returned unchanged, not reset. -/
theorem frame_footer_error_reset (r : RadarCubeReader) (fc : Nat)
    (hfc : fc < 4294967296) :
    (r.cube_header = none →
      r.read (mkFooter fc) =
        some (RadarCubeReader.new, .error .CubeHeaderMissing)) ∧
    (∀ h, r.cube_header = some h → r.frame_counter ≠ fc →
      r.read (mkFooter fc) =
        some (RadarCubeReader.new, .error .FrameCounterError)) ∧
    (∀ h e, r.cube_header = some h → r.frame_counter = fc →
      r.error = some e →
      r.read (mkFooter fc) = some (RadarCubeReader.new, .error e)) ∧
    (∀ h, r.cube_header = some h → r.frame_counter = fc → r.error = none →
      r.cube_index < r.cube.length →
      r.read (mkFooter fc) =
        some (r, .error (.MissingCubeData r.cube_index r.cube.length))) := by
  have hdispatch : ∀ res : Option ReadResult,
      frame_footer r (mkFooter fc) = res → r.read (mkFooter fc) = res := by
    intro res hres
    unfold RadarCubeReader.read mkFooter
    simp only [mkTransport_from_slice, mkDebug_debug_slice, mkDebug_flags]
    rw [← hres]
    rfl
  refine ⟨?_, ?_, ?_, ?_⟩
  · intro hch
    apply hdispatch
    unfold frame_footer
    rw [hch]
  · intro h hch hne
    apply hdispatch
    unfold frame_footer
    rw [hch]
    simp only [mkFooter, mkDebug_debug_slice, mkDebug_frame_counter fc 3 _ hfc]
    rw [if_pos hne]
  · intro h e hch hfc2 herr
    apply hdispatch
    unfold frame_footer
    rw [hch]
    simp only [mkFooter, mkDebug_debug_slice, mkDebug_frame_counter fc 3 _ hfc,
      hfc2]
    rw [if_neg (show ¬(fc ≠ fc) from by omega), herr]
  · intro h hch hfc2 herr hlt
    apply hdispatch
    unfold frame_footer
    rw [hch]
    simp only [mkFooter, mkDebug_debug_slice, mkDebug_frame_counter fc 3 _ hfc,
      hfc2]
    rw [if_neg (show ¬(fc ≠ fc) from by omega), herr]
    rw [if_pos hlt]

/-- Witness for frame_footer_error_reset: the MissingCubeData branch at a
concrete partially filled state. -/
theorem frame_footer_error_reset_witness :
    (sofState 7 0 1 2 1 1 [0, 0, 0, 1]).read (mkFooter 7) =
      some (sofState 7 0 1 2 1 1 [0, 0, 0, 1],
        .error (.MissingCubeData
          (sofState 7 0 1 2 1 1 [0, 0, 0, 1]).cube_index
          (sofState 7 0 1 2 1 1 [0, 0, 0, 1]).cube.length)) :=
  (frame_footer_error_reset (sofState 7 0 1 2 1 1 [0, 0, 0, 1]) 7
    (by decide)).2.2.2 (Hdr 1 2 1 1) rfl rfl rfl (by decide)

/-- C4 counterexample: a START_OF_FRAME for frame 10, one data packet,
then a second START_OF_FRAME with the different frame counter 11 while
frame 10 is still in flight, data and a footer for frame 11.  Every call
returns without error (no FrameCounterError is ever produced) and the
only published cube belongs to frame 11: frame 10 is dropped silently. -/
theorem second_sof_no_error_cex :
    readStream RadarCubeReader.new
        [mkSof 10 0 1 2 1 1 [0, 0, 0, 1], mkData 10 1 [0, 0, 0, 2],
         mkSof 11 5 1 2 1 1 [0, 0, 0, 3], mkData 11 6 [0, 0, 0, 4],
         mkFooter 11] =
      some (RadarCubeReader.new,
        [.ok none, .ok none, .ok none, .ok none,
         .ok (some ⟨0, 11, 2, 0, 0, List.replicate 12 0, [1, 1, 1, 2],
           [(4, 0), (3, 0)]⟩)]) := by decide

/-- C4 amended: a second START_OF_FRAME with a different frame counter
arriving while a cube is in flight produces no error at all: the
reassembler silently resets onto the new frame (returning Ok with no
cube), so the first frame is dropped without a cube and without a
FrameCounterError (an error would arise only from a later mismatching
data packet or footer). -/
theorem second_sof_silent_restart (r : RadarCubeReader) (h0 : CubeHeader)
    (fc mc rg db rx ct : Nat) (samples : List Nat)
    (_hch : r.cube_header = some h0) (_hne : fc ≠ r.frame_counter)
    (hrg : rg < 32768) (hdb : db < 32768) (hrx : rx < 128) (hct : ct < 128)
    (hfc : fc < 4294967296)
    (hfit : (parseElems samples).length ≤ ct * rg * rx * db) :
    r.read (mkSof fc mc rg db rx ct samples) =
      some (sofState fc mc rg db rx ct samples, .ok none) ∧
    (sofState fc mc rg db rx ct samples).frame_counter = fc ∧
    (sofState fc mc rg db rx ct samples).cube_header = some (Hdr rg db rx ct) :=
  ⟨read_mkSof r fc mc rg db rx ct samples hrg hdb hrx hct hfc hfit,
    rfl, rfl⟩

/-- Witness for second_sof_silent_restart at a concrete in-flight state. -/
theorem second_sof_silent_restart_witness :
    (sofState 10 0 1 2 1 1 [0, 0, 0, 1]).read
        (mkSof 11 5 1 2 1 1 [0, 0, 0, 3]) =
      some (sofState 11 5 1 2 1 1 [0, 0, 0, 3], .ok none) ∧
    (sofState 11 5 1 2 1 1 [0, 0, 0, 3]).frame_counter = 11 ∧
    (sofState 11 5 1 2 1 1 [0, 0, 0, 3]).cube_header =
      some (Hdr 1 2 1 1) :=
  second_sof_silent_restart (sofState 10 0 1 2 1 1 [0, 0, 0, 1])
    (Hdr 1 2 1 1) 11 5 1 2 1 1 [0, 0, 0, 3] rfl (by decide) (by decide)
    (by decide) (by decide) (by decide) (by decide) (by decide)

/-- C10: RadarCubeReader read is not total.  A packet with a valid
transport header whose debug flags request START_OF_FRAME but whose
transport flags omit the optional message counter drives the source into
an unwrap of None (modelled as none); likewise a valid FRAME_FOOTER whose
port id is not the bin-properties port 63 panics on the unwrapped bin
properties once the cube checks pass. -/
theorem read_panics_on_missing_fields :
    RadarCubeReader.new.read (mkTransportNoMC (mkDebug 5 1 (mkPort 5 []))) =
      none ∧
    readStream RadarCubeReader.new
      [mkSof 9 0 1 2 1 0 [],
       mkTransport 0 (mkDebug 9 3 (mkPort 5 (List.replicate 12 0)))] =
      none := by decide

/-! ## Cluster-id bookkeeping (src/clustering/mod.rs, claims C5, C6) -/

/-- The cluster-id state of the Clustering struct: the queue of returned
ids (front of the VecDeque at the head of the list) and the
monotonically-growing high-water mark. -/
structure Clustering where
  cluster_id_queue : List Nat
  cluster_id_max : Nat
deriving DecidableEq, Repr

/-- Clustering get_new_cluster_id: allocate a fresh integer when the
queue is empty, otherwise pop the FRONT of the queue. -/
def get_new_cluster_id (c : Clustering) : Nat × Clustering :=
  match c.cluster_id_queue with
  | [] => (c.cluster_id_max + 1,
      { c with cluster_id_max := c.cluster_id_max + 1 })
  | q :: rest => (q, { c with cluster_id_queue := rest })

/-- The id return performed at the end of Clustering cluster for every
removed tracklet: push_back onto the queue. -/
def release_cluster_id (c : Clustering) (id : Nat) : Clustering :=
  { c with cluster_id_queue := c.cluster_id_queue ++ [id] }

/-- Tracklet removal condition of ByteTrack update: a tracklet is removed
exactly when its expiry is strictly below the current timestamp. -/
def tracklet_expired (expiry timestamp : Nat) : Bool := expiry < timestamp

/-- C5 counterexample: with the free queue already holding id 5, the id 7
of an expired tracklet is appended at the BACK of the queue, and the next
allocation pops 5 from the front, not the freed id 7: the free list is a
FIFO queue, not a LIFO list with the freed id at its head. -/
theorem cluster_id_fifo_cex :
    (release_cluster_id ⟨[5], 7⟩ 7).cluster_id_queue = [5, 7] ∧
    (get_new_cluster_id (release_cluster_id ⟨[5], 7⟩ 7)).1 = 5 ∧
    (5 : Nat) ≠ 7 := by decide

/-- C5 amended: a removed tracklet returns its cluster id to the BACK of
the free queue; allocation pops the FRONT of the queue; a fresh integer
(the incremented high-water mark) is allocated only when the queue is
empty; every allocated id is at least 1 whenever the queue holds only
ids at least 1; and removal happens exactly when the expiry is strictly
below the current frame timestamp. -/
theorem cluster_id_queue_behavior :
    (∀ (c : Clustering) (id : Nat),
      (release_cluster_id c id).cluster_id_queue =
        c.cluster_id_queue ++ [id]) ∧
    (∀ (c : Clustering) (a : Nat) (rest : List Nat),
      c.cluster_id_queue = a :: rest →
      get_new_cluster_id c = (a, { c with cluster_id_queue := rest })) ∧
    (∀ c : Clustering, c.cluster_id_queue = [] →
      get_new_cluster_id c = (c.cluster_id_max + 1,
        { c with cluster_id_max := c.cluster_id_max + 1 })) ∧
    (∀ c : Clustering, (∀ x ∈ c.cluster_id_queue, 1 ≤ x) →
      1 ≤ c.cluster_id_max → 1 ≤ (get_new_cluster_id c).1) ∧
    (∀ expiry ts : Nat, tracklet_expired expiry ts = true ↔ expiry < ts) := by
  refine ⟨fun c id => rfl, ?_, ?_, ?_, ?_⟩
  · intro c a rest h
    unfold get_new_cluster_id
    rw [h]
  · intro c h
    unfold get_new_cluster_id
    rw [h]
  · intro c hq hm
    unfold get_new_cluster_id
    cases hq2 : c.cluster_id_queue with
    | nil => dsimp only; omega
    | cons q rest =>
      dsimp only
      exact hq q (by rw [hq2]; exact List.mem_cons_self q rest)
  · intro expiry ts
    simp [tracklet_expired]

/-- Witness for cluster_id_queue_behavior: popping the front of a
concrete queue. -/
theorem cluster_id_queue_behavior_witness :
    get_new_cluster_id ⟨[5, 7], 9⟩ = (5, ⟨[7], 9⟩) :=
  cluster_id_queue_behavior.2.1 ⟨[5, 7], 9⟩ 5 [7] rfl

/-! ## Cluster bounding boxes (Clustering cluster, claim C6)

The source works on f32; the claims about the box-adjustment algebra are
formalised over the rationals, with the float literals read as exact
decimal values. -/

/-- Fold of the coordinate extremes over a cluster, mirroring the
xmin/xmax/ymin/ymax loop with its large sentinel start values.  The
result is (xmin, xmax, ymin, ymax). -/
def cluster_bounds (pts : List (ℚ × ℚ)) : ℚ × ℚ × ℚ × ℚ :=
  pts.foldl
    (fun b p => (min p.1 b.1, max p.1 b.2.1, min p.2 b.2.2.1,
      max p.2 b.2.2.2))
    ((9999999.9 : ℚ), (-9999999.9 : ℚ), (9999999.9 : ℚ), (-9999999.9 : ℚ))

/-- The per-axis adjustment applied when the raw extent is below twice
eps: the maximum is set to the raw midpoint plus half of eps, and the
minimum is then recomputed from the ALREADY UPDATED maximum, exactly as
the two sequential assignments in the source. -/
def adjust_axis (eps lo hi : ℚ) : ℚ × ℚ :=
  if hi - lo < eps * 2 then
    let hi2 := (hi + lo) / 2 + eps / 2
    ((hi2 + lo) / 2 - eps / 2, hi2)
  else (lo, hi)

/-- The axis-aligned box handed to the tracker for one non-noise cluster,
as (xmin, ymin, xmax, ymax) like the VAALBox fields. -/
def cluster_box (eps : ℚ) (pts : List (ℚ × ℚ)) : ℚ × ℚ × ℚ × ℚ :=
  let b := cluster_bounds pts
  let x := adjust_axis eps b.1 b.2.1
  let y := adjust_axis eps b.2.2.1 b.2.2.2
  (x.1, y.1, x.2, y.2)

/-- C6 counterexample: the single-point cluster at the origin with eps 1
yields the box [-1/4, 1/2] x [-1/4, 1/2]: its side length 3/4 is smaller
than 2 times eps, and it is not symmetric about the centroid 0. -/
theorem bbox_min_side_cex :
    cluster_box 1 [(0, 0)] = (-(1/4 : ℚ), -(1/4 : ℚ), (1/2 : ℚ), (1/2 : ℚ)) ∧
    ¬((1/2 : ℚ) - -(1/4 : ℚ) ≥ 2 * 1) ∧
    ((1/2 : ℚ) + -(1/4 : ℚ)) / 2 ≠ 0 := by
  refine ⟨?_, by norm_num, by norm_num⟩
  show cluster_box 1 [(0, 0)] = _
  norm_num [cluster_box, cluster_bounds, adjust_axis]

/-- C6 amended: when the raw extent of a cluster on an axis is below
2 times eps, the adjusted side length equals (raw extent)/4 plus
3 times eps/4 — strictly below 2 times eps whenever eps is positive —
and the adjusted maximum is the raw midpoint plus eps/2 while the
minimum is recomputed from the updated maximum; when the raw extent is
at least 2 times eps the axis is left unchanged. -/
theorem cluster_box_adjust_formula (eps lo hi : ℚ) :
    (hi - lo < eps * 2 →
      (adjust_axis eps lo hi).2 - (adjust_axis eps lo hi).1 =
          (hi - lo) / 4 + 3 * eps / 4 ∧
        (adjust_axis eps lo hi).2 = (hi + lo) / 2 + eps / 2 ∧
        (adjust_axis eps lo hi).1 =
          ((hi + lo) / 2 + eps / 2 + lo) / 2 - eps / 2 ∧
        (0 < eps → (adjust_axis eps lo hi).2 - (adjust_axis eps lo hi).1 <
          eps * 2)) ∧
    (¬(hi - lo < eps * 2) → adjust_axis eps lo hi = (lo, hi)) := by
  constructor
  · intro h
    refine ⟨?_, ?_, ?_, ?_⟩
    · simp only [adjust_axis, if_pos h]
      ring
    · simp only [adjust_axis, if_pos h]
    · simp only [adjust_axis, if_pos h]
    · intro heps
      simp only [adjust_axis, if_pos h]
      nlinarith
  · intro h
    simp only [adjust_axis, if_neg h]

/-- Witness for cluster_box_adjust_formula at eps 1 on a degenerate
extent. -/
theorem cluster_box_adjust_formula_witness :
    (adjust_axis 1 0 0).2 - (adjust_axis 1 0 0).1 =
      ((0 : ℚ) - 0) / 4 + 3 * 1 / 4 :=
  ((cluster_box_adjust_formula 1 0 0).1 (by norm_num)).1

/-! ## UATv4 CAN protocol engine (src/can.rs, claims C7, C8, C9)

The f64 scale factors of the target decoder are modelled as exact
rationals (0.04 is 4/100 and so on). -/

/-- Raw CAN packet: message id and the 8-byte payload as a little-endian
64-bit word. -/
structure Packet where
  id : Nat
  data : Nat
deriving DecidableEq, Repr

/-- Radar frame header. -/
structure Header where
  seconds : Nat
  nanoseconds : Nat
  cycle_duration : ℚ
  cycle_counter : Nat
  n_targets : Nat
  tx_antenna : Nat
  frequency_sweep : Nat
  center_frequency : Nat
deriving DecidableEq, Repr

/-- Detected radar target. -/
structure Target where
  range : ℚ
  azimuth : ℚ
  elevation : ℚ
  speed : ℚ
  rcs : ℚ
  power : ℚ
  noise : ℚ
deriving DecidableEq, Repr

/-- DRVEGRD protocol error kinds; diagnostic payloads are dropped.  The
source Io variant is rendered IoErr. -/
inductive CanError where
  | IoErr : CanError
  | InvalidHeader : CanError
  | OutOfSequence : CanError
  | NoSocket : CanError
  | InvalidResponseId : CanError
  | UATProtocolUnsupported : CanError
  | UATCRCError : CanError
  | UATError : CanError
deriving DecidableEq, Repr

/-- A complete radar frame.  The source stores a 256-entry target array
of which only the first n_targets entries are written; the model keeps
exactly those entries. -/
structure Frame where
  header : Header
  targets : List Target
deriving DecidableEq, Repr

/-- u64 from_le_bytes over the first eight payload bytes. -/
def load_data (d : List Nat) : Nat :=
  d.getD 0 0 + 256 * (d.getD 1 0 + 256 * (d.getD 2 0 + 256 * (d.getD 3 0
    + 256 * (d.getD 4 0 + 256 * (d.getD 5 0 + 256 * (d.getD 6 0
    + 256 * d.getD 7 0))))))

/-- Sub-header 0: cycle duration (12 bits, times 0.064 s), cycle counter
(32 bits from bit 15), n_targets (8 bits from bit 47), antenna / sweep /
frequency (2 bits each from bits 56 / 58 / 60). -/
def read_header_0 (data : Nat) (hdr : Option Header) :
    Except CanError Header :=
  if (data >>> 62) &&& 3 ≠ 0 then .error .OutOfSequence
  else
    let cycle_duration := data &&& 0xFFF
    let cycle_counter := (data >>> 15) &&& 0xFFFFFFFF
    let n_targets := (data >>> 47) &&& 0xFF
    let tx_antenna := (data >>> 56) &&& 0x3
    let frequency_sweep := (data >>> 58) &&& 0x3
    let center_frequency := (data >>> 60) &&& 0x3
    match hdr with
    | some hdr => .ok ⟨hdr.seconds, hdr.nanoseconds,
        (cycle_duration : ℚ) * (64 / 1000), cycle_counter, n_targets,
        tx_antenna, frequency_sweep, center_frequency⟩
    | none => .ok ⟨0, 0, (cycle_duration : ℚ) * (64 / 1000), cycle_counter,
        n_targets, tx_antenna, frequency_sweep, center_frequency⟩

/-- Sub-header 1: reserved carrier, contents passed through. -/
def read_header_1 (data : Nat) (hdr : Option Header) :
    Except CanError Header :=
  if (data >>> 62) &&& 3 ≠ 1 then .error .OutOfSequence
  else
    match hdr with
    | some hdr => .ok hdr
    | none => .ok ⟨0, 0, 0, 0, 0, 0, 0, 0⟩

/-- Sub-header 2: reserved carrier, contents passed through. -/
def read_header_2 (data : Nat) (hdr : Option Header) :
    Except CanError Header :=
  if (data >>> 62) &&& 3 ≠ 2 then .error .OutOfSequence
  else
    match hdr with
    | some hdr => .ok hdr
    | none => .ok ⟨0, 0, 0, 0, 0, 0, 0, 0⟩

/-- Target packet 0 (LSB clear): range 13 bits at bit 1 times 0.04 m,
azimuth 10 bits at bit 22 biased by 511 times 0.16 degrees, speed 12
bits at bit 39 biased by 2992 times 0.04 m/s. -/
def read_data_0 (data : Nat) (tgt : Option Target) : Target :=
  let range : Nat := (data >>> 1) &&& 0x1FFF
  let azimuth : Int := (((data >>> 22) &&& 0x3FF : Nat) : Int) - 511
  let speed : Int := (((data >>> 39) &&& 0xFFF : Nat) : Int) - 2992
  match tgt with
  | some tgt => ⟨(range : ℚ) * (4 / 100), (azimuth : ℚ) * (16 / 100),
      tgt.elevation, (speed : ℚ) * (4 / 100), tgt.rcs, tgt.power, tgt.noise⟩
  | none => ⟨(range : ℚ) * (4 / 100), (azimuth : ℚ) * (16 / 100), 0,
      (speed : ℚ) * (4 / 100), 0, 0, 0⟩

/-- Target packet 1 (LSB set): RCS 8 bits at bit 1 biased by 75 times
0.2 dBsm, power 8 bits at bit 9 in dBm, noise 8 bits at bit 17 times
0.5 dBm, elevation 10 bits at bit 37 biased by 511 times 0.04 degrees. -/
def read_data_1 (data : Nat) (tgt : Option Target) : Target :=
  let rcs : Int := (((data >>> 1) &&& 0xFF : Nat) : Int) - 75
  let power : Nat := (data >>> 9) &&& 0xFF
  let noise : Nat := (data >>> 17) &&& 0xFF
  let elevation : Int := (((data >>> 37) &&& 0x3FF : Nat) : Int) - 511
  match tgt with
  | some tgt => ⟨tgt.range, tgt.azimuth, (elevation : ℚ) * (4 / 100),
      tgt.speed, (rcs : ℚ) * (2 / 10), (power : ℚ), (noise : ℚ) * (5 / 10)⟩
  | none => ⟨0, 0, (elevation : ℚ) * (4 / 100), 0, (rcs : ℚ) * (2 / 10),
      (power : ℚ), (noise : ℚ) * (5 / 10)⟩

/-- Dispatch on the LSB: packet 1 when set, packet 0 otherwise. -/
def read_data (data : Nat) (tgt : Option Target) : Target :=
  if data &&& 1 ≠ 0 then read_data_1 data tgt else read_data_0 data tgt

/-- The search loop of read_message: drop packets until an id 0x400
packet whose top two payload bits (the sub-header tag) are 0. -/
def find_sof : List Packet → Option (Packet × List Packet)
  | [] => none
  | p :: ps =>
    if p.id = 0x400 ∧ (p.data >>> 62) &&& 3 = 0 then some (p, ps)
    else find_sof ps

/-- The target-reading loop of read_message: for target index i the two
consecutive packets must both carry id 0x401 + i; the first mismatching
packet aborts with OutOfSequence.  The packets remaining after the last
one consumed are returned alongside; an exhausted stream stands for a
failing socket read (IoErr). -/
def read_targets : Nat → Nat → List Packet →
    Except CanError (List Target) × List Packet
  | 0, _, pkts => (.ok [], pkts)
  | n + 1, i, pkts =>
    match pkts with
    | [] => (.error .IoErr, [])
    | p0 :: rest =>
      if p0.id = 0x401 + i then
        let t0 := read_data_0 p0.data none
        match rest with
        | [] => (.error .IoErr, [])
        | p1 :: rest2 =>
          if p1.id = 0x401 + i then
            let t := read_data_1 p1.data (some t0)
            match read_targets n (i + 1) rest2 with
            | (.ok ts, rem) => (.ok (t :: ts), rem)
            | (.error e, rem) => (.error e, rem)
          else (.error .OutOfSequence, rest2)
      else (.error .OutOfSequence, rest)

/-- read_message over a packet stream: search for the id 0x400 / tag 0
header, require sub-headers 1 and 2 in order, then read 2 times
n_targets target packets.  The unconsumed suffix of the stream is
returned with the result so that a subsequent call resumes there. -/
def read_message (pkts : List Packet) :
    Except CanError Frame × List Packet :=
  match find_sof pkts with
  | none => (.error .IoErr, [])
  | some (p0, rest) =>
    match read_header_0 p0.data none with
    | .error e => (.error e, rest)
    | .ok h0 =>
      match rest with
      | [] => (.error .IoErr, [])
      | p1 :: r1 =>
        match read_header_1 p1.data (some h0) with
        | .error e => (.error e, r1)
        | .ok h1 =>
          match r1 with
          | [] => (.error .IoErr, [])
          | p2 :: r2 =>
            match read_header_2 p2.data (some h1) with
            | .error e => (.error e, r2)
            | .ok h2 =>
              match read_targets h2.n_targets 0 r2 with
              | (.ok ts, rem) => (.ok ⟨h2, ts⟩, rem)
              | (.error e, rem) => (.error e, rem)

/-- Well-formed target packet pairs for consecutive ids starting at
0x401 + i. -/
def mkTargets (i : Nat) : List (Nat × Nat) → List Packet
  | [] => []
  | (d0, d1) :: rest =>
    ⟨0x401 + i, d0⟩ :: ⟨0x401 + i, d1⟩ :: mkTargets (i + 1) rest

/-- The decoded targets of a list of packet payload pairs. -/
def decodeTargets (ds : List (Nat × Nat)) : List Target :=
  ds.map fun d => read_data_1 d.2 (some (read_data_0 d.1 none))

theorem read_targets_ok (ds : List (Nat × Nat)) :
    ∀ (i : Nat) (rest : List Packet),
      read_targets ds.length i (mkTargets i ds ++ rest) =
        (.ok (decodeTargets ds), rest) := by
  induction ds with
  | nil => intro i rest; rfl
  | cons d ds ih =>
    intro i rest
    show read_targets (ds.length + 1) i
      (⟨0x401 + i, d.1⟩ :: ⟨0x401 + i, d.2⟩ :: (mkTargets (i + 1) ds ++ rest)) =
      _
    unfold read_targets
    dsimp only
    rw [if_pos rfl, if_pos rfl]
    rw [ih (i + 1) rest]
    rfl

theorem read_targets_bad_id (ds : List (Nat × Nat)) :
    ∀ (i m : Nat) (bad : Packet) (rest : List Packet),
      bad.id ≠ 0x401 + (i + ds.length) →
      read_targets (ds.length + m + 1) i
          (mkTargets i ds ++ bad :: rest) =
        (.error .OutOfSequence, rest) := by
  induction ds with
  | nil =>
    intro i m bad rest hbad
    rw [show (([] : List (Nat × Nat)).length + m + 1) = m + 1 from by simp]
    show read_targets (m + 1) i (bad :: rest) = _
    unfold read_targets
    dsimp only
    rw [if_neg (by simpa using hbad)]
  | cons d ds ih =>
    intro i m bad rest hbad
    show read_targets (ds.length + 1 + m + 1) i
      (⟨0x401 + i, d.1⟩ :: ⟨0x401 + i, d.2⟩ ::
        (mkTargets (i + 1) ds ++ bad :: rest)) = _
    have hn : ds.length + 1 + m + 1 = (ds.length + m + 1) + 1 := by omega
    rw [hn]
    unfold read_targets
    dsimp only
    rw [if_pos rfl, if_pos rfl]
    rw [ih (i + 1) m bad rest
      (by simp only [List.length_cons] at hbad; omega)]

theorem find_sof_append (pkts : List Packet) :
    ∀ junk : List Packet,
      (∀ p ∈ junk, ¬(p.id = 0x400 ∧ (p.data >>> 62) &&& 3 = 0)) →
      find_sof (junk ++ pkts) = find_sof pkts := by
  intro junk
  induction junk with
  | nil => intro _; rfl
  | cons p junk ih =>
    intro hjunk
    show (if p.id = 0x400 ∧ (p.data >>> 62) &&& 3 = 0
        then some (p, junk ++ pkts) else find_sof (junk ++ pkts)) =
      find_sof pkts
    rw [if_neg (hjunk p (List.mem_cons_self _ _))]
    exact ih (fun q hq => hjunk q (List.mem_cons_of_mem p hq))

theorem read_header_0_none (d0 : Nat) (ht0 : (d0 >>> 62) &&& 3 = 0) :
    read_header_0 d0 none = .ok ⟨0, 0,
      ((d0 &&& 0xFFF : Nat) : ℚ) * (64 / 1000), (d0 >>> 15) &&& 0xFFFFFFFF,
      (d0 >>> 47) &&& 0xFF, (d0 >>> 56) &&& 3, (d0 >>> 58) &&& 3,
      (d0 >>> 60) &&& 3⟩ := by
  unfold read_header_0
  rw [if_neg (by omega)]

theorem read_header_1_pass (data : Nat) (h : Header)
    (ht : (data >>> 62) &&& 3 = 1) :
    read_header_1 data (some h) = .ok h := by
  unfold read_header_1
  rw [if_neg (by omega)]

theorem read_header_2_pass (data : Nat) (h : Header)
    (ht : (data >>> 62) &&& 3 = 2) :
    read_header_2 data (some h) = .ok h := by
  unfold read_header_2
  rw [if_neg (by omega)]

/-- C7: read_message skips every frame until an id 0x400 frame with
sub-header tag 0 arrives; with sub-headers 1 and 2 following in order and
exactly 2 times n_targets target packets on the expected ids
0x401 + i (both packets of target i on the same id) it returns the
decoded frame, leaving the rest of the stream for the next call; and the
first target packet whose id differs from the expected one makes the
call return OutOfSequence with the remaining stream, so the next call
resumes the search for 0x400. -/
theorem read_message_stream_behavior :
    (∀ (junk pkts : List Packet),
      (∀ p ∈ junk, ¬(p.id = 0x400 ∧ (p.data >>> 62) &&& 3 = 0)) →
      read_message (junk ++ pkts) = read_message pkts) ∧
    (∀ (d0 d1 d2 a1 a2 : Nat) (ds : List (Nat × Nat)) (rest : List Packet),
      (d0 >>> 62) &&& 3 = 0 → (d1 >>> 62) &&& 3 = 1 →
      (d2 >>> 62) &&& 3 = 2 → (d0 >>> 47) &&& 0xFF = ds.length →
      ∃ fr : Frame,
        read_message (⟨0x400, d0⟩ :: ⟨a1, d1⟩ :: ⟨a2, d2⟩ ::
            (mkTargets 0 ds ++ rest)) = (.ok fr, rest) ∧
          fr.header.n_targets = ds.length ∧
          fr.targets = decodeTargets ds) ∧
    (∀ (d0 d1 d2 a1 a2 m : Nat) (ds : List (Nat × Nat)) (bad : Packet)
        (rest : List Packet),
      (d0 >>> 62) &&& 3 = 0 → (d1 >>> 62) &&& 3 = 1 →
      (d2 >>> 62) &&& 3 = 2 → (d0 >>> 47) &&& 0xFF = ds.length + m + 1 →
      bad.id ≠ 0x401 + ds.length →
      read_message (⟨0x400, d0⟩ :: ⟨a1, d1⟩ :: ⟨a2, d2⟩ ::
          (mkTargets 0 ds ++ bad :: rest)) =
        (.error .OutOfSequence, rest)) := by
  refine ⟨?_, ?_, ?_⟩
  · intro junk pkts hjunk
    unfold read_message
    rw [find_sof_append pkts junk hjunk]
  · intro d0 d1 d2 a1 a2 ds rest ht0 ht1 ht2 hn
    refine ⟨⟨⟨0, 0, ((d0 &&& 0xFFF : Nat) : ℚ) * (64 / 1000),
      (d0 >>> 15) &&& 0xFFFFFFFF, ds.length, (d0 >>> 56) &&& 3,
      (d0 >>> 58) &&& 3, (d0 >>> 60) &&& 3⟩, decodeTargets ds⟩, ?_, rfl, rfl⟩
    unfold read_message
    have hfs : find_sof (⟨0x400, d0⟩ :: ⟨a1, d1⟩ :: ⟨a2, d2⟩ ::
        (mkTargets 0 ds ++ rest)) = some (⟨0x400, d0⟩,
        ⟨a1, d1⟩ :: ⟨a2, d2⟩ :: (mkTargets 0 ds ++ rest)) := by
      unfold find_sof
      rw [if_pos ⟨rfl, ht0⟩]
    rw [hfs]
    dsimp only
    rw [read_header_0_none d0 ht0]
    dsimp only
    rw [read_header_1_pass d1 _ ht1]
    dsimp only
    rw [read_header_2_pass d2 _ ht2]
    dsimp only
    rw [hn]
    rw [read_targets_ok ds 0 rest]
  · intro d0 d1 d2 a1 a2 m ds bad rest ht0 ht1 ht2 hn hbad
    unfold read_message
    have hfs : find_sof (⟨0x400, d0⟩ :: ⟨a1, d1⟩ :: ⟨a2, d2⟩ ::
        (mkTargets 0 ds ++ bad :: rest)) = some (⟨0x400, d0⟩,
        ⟨a1, d1⟩ :: ⟨a2, d2⟩ :: (mkTargets 0 ds ++ bad :: rest)) := by
      unfold find_sof
      rw [if_pos ⟨rfl, ht0⟩]
    rw [hfs]
    dsimp only
    rw [read_header_0_none d0 ht0]
    dsimp only
    rw [read_header_1_pass d1 _ ht1]
    dsimp only
    rw [read_header_2_pass d2 _ ht2]
    dsimp only
    rw [hn]
    rw [read_targets_bad_id ds 0 m bad rest (by omega)]

/-- Witness for read_message_stream_behavior: a zero-target frame after
one junk packet is decoded and the stream is left empty. -/
theorem read_message_stream_behavior_witness :
    ∃ fr : Frame,
      read_message [⟨0x400, 0⟩, ⟨0x401, 4611686018427387904⟩,
          ⟨0x401, 9223372036854775808⟩] = (.ok fr, []) ∧
        fr.header.n_targets = ([] : List (Nat × Nat)).length ∧
        fr.targets = decodeTargets [] :=
  read_message_stream_behavior.2.1 0 4611686018427387904
    9223372036854775808 0x401 0x401 [] [] (by decide) (by decide)
    (by decide) (by decide)

/-- C8: the reference target packets decode to the documented values.
The first packet (LSB clear) gives range 7.08 m and azimuth -27.2
degrees with all other fields zero; the second (LSB set) gives elevation
3.68 degrees, RCS -4.2 dBsm, power 133 dBm, noise 95 dBm and zero range,
azimuth and speed.  The f64 scales are the exact rationals 4/100, 16/100,
2/10 and 5/10. -/
theorem target_decode_reference_packets :
    read_data (load_data [0x62, 0xC1, 0x40, 0x55, 0x03, 0xD8, 0x0D, 0x00])
        none =
      ⟨708 / 100, -(272 / 10), 0, 0, 0, 0, 0⟩ ∧
    read_data (load_data [0x6D, 0x0A, 0x7D, 0x01, 0x60, 0xCB, 0x01, 0x00])
        none =
      ⟨0, 0, 368 / 100, 0, -(42 / 10), 133, 95⟩ := by
  have hld1 : load_data [0x62, 0xC1, 0x40, 0x55, 0x03, 0xD8, 0x0D, 0x00] =
      3896683524047202 := by decide
  have hld2 : load_data [0x6D, 0x0A, 0x7D, 0x01, 0x60, 0xCB, 0x01, 0x00] =
      505088178981485 := by decide
  constructor
  · rw [hld1]
    unfold read_data
    rw [if_neg (show ¬(3896683524047202 &&& 1 ≠ 0) from by decide)]
    unfold read_data_0
    rw [show (3896683524047202 >>> 1) &&& 0x1FFF = 177 from by decide,
      show (3896683524047202 >>> 22) &&& 0x3FF = 341 from by decide,
      show (3896683524047202 >>> 39) &&& 0xFFF = 2992 from by decide]
    simp only [Target.mk.injEq]
    norm_num
  · rw [hld2]
    unfold read_data
    rw [if_pos (show (505088178981485 &&& 1 ≠ 0) from by decide)]
    unfold read_data_1
    rw [show (505088178981485 >>> 1) &&& 0xFF = 54 from by decide,
      show (505088178981485 >>> 9) &&& 0xFF = 133 from by decide,
      show (505088178981485 >>> 17) &&& 0xFF = 190 from by decide,
      show (505088178981485 >>> 37) &&& 0x3FF = 603 from by decide]
    simp only [Target.mk.injEq]
    norm_num

/-! ## UATv4 CRC (message_crc and send_instruction, claim C9) -/

/-- One CRC-16/CCITT-FALSE shift step (polynomial 0x1021). -/
def crc16_shift (c : Nat) : Nat :=
  if c &&& 0x8000 ≠ 0 then ((c <<< 1) ^^^ 0x1021) &&& 0xFFFF
  else (c <<< 1) &&& 0xFFFF

/-- Iterated CRC shift steps. -/
def crc16_shifts : Nat → Nat → Nat
  | 0, c => c
  | n + 1, c => crc16_shifts n (crc16_shift c)

/-- One input byte of CRC-16/CCITT-FALSE. -/
def crc16_byte (c b : Nat) : Nat :=
  crc16_shifts 8 ((c ^^^ ((b &&& 0xFF) <<< 8)) &&& 0xFFFF)

/-- CRC-16/CCITT-FALSE of a byte list: initial value 0xFFFF, polynomial
0x1021, most significant bit first, no reflection, no final xor.  This
models the CCITT_FALSE state of the external crc16 crate used by
message_crc; the reference vector 0x29B1 below validates the model. -/
def crc16 (bytes : List Nat) : Nat := bytes.foldl crc16_byte 0xFFFF

/-- UATv4 instruction header (frame 0). -/
structure InstructionHeader where
  uat_id : Nat
  message_index : Nat
  protocol_version : Nat
  device_id : Nat
  instructions : Nat
  crc : Nat
deriving DecidableEq, Repr

/-- UATv4 instruction message 1. -/
structure InstructionMessage1 where
  uat_id : Nat
  message_index : Nat
  message_type : Nat
  parnum : Nat
  dim0 : Nat
  dim1 : Nat
deriving DecidableEq, Repr

/-- UATv4 instruction message 2. -/
structure InstructionMessage2 where
  uat_id : Nat
  message_index : Nat
  format : Nat
  value : Nat
deriving DecidableEq, Repr

/-- Serialization of the instruction header into its 8 CAN bytes:
little-endian uat_id, the four single bytes, little-endian crc. -/
def serInstructionHeader (h : InstructionHeader) : List Nat :=
  [h.uat_id % 256, h.uat_id / 256 % 256, h.message_index % 256,
   h.protocol_version % 256, h.device_id % 256, h.instructions % 256,
   h.crc % 256, h.crc / 256 % 256]

/-- Serialization of instruction message 1 into its 8 CAN bytes. -/
def serInstructionMessage1 (m : InstructionMessage1) : List Nat :=
  [m.uat_id % 256, m.uat_id / 256 % 256, m.message_index % 256,
   m.message_type % 256, m.parnum % 256, m.parnum / 256 % 256,
   m.dim0 % 256, m.dim1 % 256]

/-- Serialization of instruction message 2 into its 8 CAN bytes with the
little-endian 32-bit value. -/
def serInstructionMessage2 (m : InstructionMessage2) : List Nat :=
  [m.uat_id % 256, m.uat_id / 256 % 256, m.message_index % 256,
   m.format % 256, m.value % 256, m.value / 256 % 256,
   m.value / 65536 % 256, m.value / 16777216 % 256]

/-- message_crc: CRC-16/CCITT-FALSE over the first six header bytes
(excluding the CRC field itself) followed by the full eight bytes of
each of the two messages - 22 bytes in total. -/
def message_crc (h : InstructionHeader) (m1 : InstructionMessage1)
    (m2 : InstructionMessage2) : Nat :=
  crc16 ((serInstructionHeader h).take 6 ++ serInstructionMessage1 m1
    ++ serInstructionMessage2 m2)

/-- The three 8-byte frames emitted by send_instruction on id 0x3FB:
the CRC is computed first and written into the header before the frames
are serialized. -/
def send_instruction_frames (h : InstructionHeader)
    (m1 : InstructionMessage1) (m2 : InstructionMessage2) :
    List (List Nat) :=
  let h2 := { h with crc := message_crc h m1 m2 }
  [serInstructionHeader h2, serInstructionMessage1 m1,
   serInstructionMessage2 m2]

set_option maxRecDepth 8192 in
/-- C9: CRC-16/CCITT-FALSE of the ASCII string 123456789 is 0x29B1; the
CRC of the reference request with uat_id 2010, parnum 2, message type
ParameterWrite (2) is 0xD5AB; the CRC over the 22-byte concatenation
ignores the header CRC field entirely (so holding it at zero during
calculation is immaterial); and the transmitted header frame carries the
computed CRC in its bytes 6 and 7. -/
theorem uat_crc_reference :
    crc16 [0x31, 0x32, 0x33, 0x34, 0x35, 0x36, 0x37, 0x38, 0x39] =
      0x29B1 ∧
    message_crc ⟨2010, 0, 4, 0, 1, 0⟩ ⟨2010, 1, 2, 2, 0, 0⟩
      ⟨2010, 2, 0, 0⟩ = 0xD5AB ∧
    (∀ (h : InstructionHeader) (m1 : InstructionMessage1)
        (m2 : InstructionMessage2) (c : Nat),
      message_crc { h with crc := c } m1 m2 = message_crc h m1 m2) ∧
    (∀ (h : InstructionHeader) (m1 : InstructionMessage1)
        (m2 : InstructionMessage2),
      (send_instruction_frames h m1 m2).getD 0 [] =
        serInstructionHeader { h with crc := message_crc h m1 m2 } ∧
      ((send_instruction_frames h m1 m2).getD 0 []).getD 6 0 =
        message_crc h m1 m2 % 256 ∧
      ((send_instruction_frames h m1 m2).getD 0 []).getD 7 0 =
        message_crc h m1 m2 / 256 % 256) := by
  refine ⟨by decide, by decide, ?_, ?_⟩
  · intro h m1 m2 c
    unfold message_crc serInstructionHeader
    rfl
  · intro h m1 m2
    refine ⟨rfl, ?_, ?_⟩ <;>
      simp [send_instruction_frames, serInstructionHeader]
